import Mathlib

/-!
Shallow embedding of the telegram_menu session/navigation engine
(src/telegram_menu/models.py and src/telegram_menu/navigation.py).

Modelling conventions:
* Python object identity is modelled by a heap: `Session.store : Nat → MsgData`
  maps an object reference to the mutable state of a `BaseMessage`; the menu
  stack and the application-message queue hold references, and in-place
  mutation is a store update.
* A fallible bot/transport call consumes the next `SendResult` from a trace
  (`St.trs`); calls the source wraps in `try/except BadRequest` turn a
  `badRequest` answer into their fallback value, unguarded calls turn it into
  a raised exception.
* Python exceptions are the `Res.exn` constructor; the heap mutations already
  performed before the raise survive, exactly as in Python.
* Timestamps are abstract `Nat` instants; `datetime.now()` is the `now`
  argument of each operation.
* Outputs of application-supplied code (content producers, button handlers)
  are oracle arguments of the operations.
-/

namespace TelegramMenu

/-- Python exceptions that the modelled code can raise. -/
inductive PyErr where
  | attributeError
  | valueError (msg : String)
  | indexError
  | typeError
  | telegramBadRequest
  deriving Repr, DecidableEq

/-- Result of a Python call: normal return value or raised exception. -/
inductive Res (α : Type) where
  | ok (a : α)
  | exn (e : PyErr)
  deriving Repr, DecidableEq

/-- Map over the normal-return value of a result. -/
def Res.map (f : α → β) : Res α → Res β
  | .ok a => .ok (f a)
  | .exn e => .exn e

/-- Answer of the remote transport to one bot call: the sent message id, or a
BadRequest rejection. -/
inductive SendResult where
  | sent (message_id : Int)
  | badRequest
  deriving Repr, DecidableEq

/-- Observable transport/application side effects, in order of emission. -/
inductive Effect where
  | sendMessage (content : String)
  | sendPhoto (path : String) (caption : String)
  | sendSticker (path : String)
  | editText (message_id : Int) (content : String)
  | editCaption (message_id : Int) (content : String)
  | deleteMsg (message_id : Int)
  | answerCallback (callback_id : String) (text : String)
  | chatAction
  | sendPollMsg (question : String) (options : List String)
  | handlerCall
  | textInputCall (target : Nat) (text : String)
  | pollCallback (text : String)
  deriving Repr, DecidableEq

/-! ### String helpers mirroring the Python operators used by the source -/

/-- Python substring test `pat in s`, over the character list of `s`. -/
def containsSub (s pat : String) : Bool :=
  (List.range (s.data.length + 1)).any (fun i => pat.data.isPrefixOf (s.data.drop i))

/-- Index of the first occurrence of `sep` in a character list. -/
def findOcc (sep : List Char) : List Char → Option Nat
  | [] => none
  | c :: rest =>
    if sep.isPrefixOf (c :: rest) then some 0
    else (findOcc sep rest).map (· + 1)

/-- Python `str.split(sep)` for a non-empty separator `c :: cs`: cut at every
non-overlapping occurrence of the separator, left to right.  The fuel is the
length of the input, which bounds the number of cuts (every cut consumes at
least the separator, one character or more). -/
def pySplitListAux (c : Char) (cs : List Char) : Nat → List Char → List (List Char)
  | 0, s => [s]
  | fuel + 1, s =>
    match findOcc (c :: cs) s with
    | none => [s]
    | some i => s.take i :: pySplitListAux c cs fuel (s.drop (i + (c :: cs).length))

/-- Python `str.split(sep)` on character lists, non-empty separator. -/
def pySplitList (c : Char) (cs : List Char) (s : List Char) : List (List Char) :=
  pySplitListAux c cs s.length s

/-- Python `token.split(sep)`; the source only calls it with the constant
two-character separator. -/
def pySplit (s sep : String) : List String :=
  match sep.data with
  | [] => [s]
  | c :: cs => (pySplitList c cs s.data).map (fun l => String.mk l)

/-- Modelled from the spec: emoji/glyph substitution is an external
collaborator (spec section 1, out of scope); `emoji_replace` only rewrites
`:alias:` tokens through the external emoji library, so on the alias-free
labels of this development it is the identity, and it is modelled as such. -/
def emoji_replace (label : String) : String := label

/-- Modelled from the spec: `validators.url` is the external URL-validation
collaborator (spec section 1, out of scope); modelled as accepting any
non-empty string.  The source only consults it when `web_app_url` is
non-empty. -/
def validators_url (s : String) : Bool := s ≠ ""

/-! ### Data model (models.py) -/

/-- ButtonType enumeration (models.py). -/
inductive ButtonType where
  | NOTIFICATION
  | MESSAGE
  | PICTURE
  | STICKER
  | POLL
  | LINK
  deriving Repr, DecidableEq

/-- TypeCallback: `None`, a callable handler (application code, identified by
an opaque id), or a `BaseMessage` (a heap reference). -/
inductive Callback where
  | noCb
  | func (id : Nat)
  | msg (mref : Nat)
  deriving Repr, DecidableEq

/-- Python `callable(cb)`: only a plain function is callable; `None` and
`BaseMessage` instances are not. -/
def Callback.callableB : Callback → Bool
  | .func _ => true
  | _ => false

/-- Arguments attached to a button: the `[question, options]` pair consumed by
the POLL branch, an opaque value for other handlers, or `None`. -/
inductive BtnArgs where
  | pollArgs (question : String) (options : List String)
  | opaqueArgs (id : Nat)
  deriving Repr, DecidableEq

/-- MenuButton (models.py, dataclass). -/
structure MenuButton where
  label : String
  callback : Callback
  btype : ButtonType
  args : Option BtnArgs
  notification : Bool
  web_app_url : String
  deriving Repr, DecidableEq

/-- MenuButton constructor; the label passes through emoji replacement. -/
def menu_button_init (label : String) (callback : Callback) (btype : ButtonType)
    (args : Option BtnArgs) (notification : Bool) (web_app_url : String) : MenuButton :=
  { label := emoji_replace label, callback := callback, btype := btype,
    args := args, notification := notification, web_app_url := web_app_url }

/-- Mutable state of a BaseMessage object (models.py).  `time_alive = none`
models the annotated-but-never-assigned attribute: reading it raises
AttributeError; the source never assigns it the value `None`, so the
`is not None` guard in `has_expired` is only reached with a real timestamp. -/
structure MsgData where
  keyboard : List (List MenuButton)
  label : String
  inlined : Bool
  picture : String
  notification : Bool
  input_field : String
  keyboard_previous : List (List MenuButton)
  content_previous : String
  home_after : Bool
  message_id : Int
  expiry_period : Nat
  time_alive : Option Nat
  deriving Repr, DecidableEq

/-- Default expiry period: EXPIRING_DELAY = 12 minutes, in seconds. -/
def EXPIRING_DELAY_SECONDS : Nat := 12 * 60

/-- Reserved callback-token separator (models.py `SEPARATOR = "##"`). -/
def SEPARATOR : String := "##"

/-- BaseMessage.__init__: note that `time_alive` is not initialized. -/
def base_message_init (label : String) (picture : String) (expiry_period : Option Nat)
    (inlined : Bool) (home_after : Bool) (notification : Bool)
    (input_field : String) : MsgData :=
  { keyboard := [[]]
    label := emoji_replace label
    inlined := inlined
    picture := picture
    notification := notification
    input_field := input_field
    keyboard_previous := [[]]
    content_previous := ""
    home_after := home_after
    message_id := -1
    expiry_period := expiry_period.getD EXPIRING_DELAY_SECONDS
    time_alive := none }

/-- BaseMessage.get_button: first button in row-major order whose label
matches. -/
def MsgData.get_button (m : MsgData) (label : String) : Option MenuButton :=
  m.keyboard.flatten.find? (fun b => b.label = label)

/-- BaseMessage.add_button: appends a new MenuButton to the last keyboard row,
or opens a new row when `new_row` is set or the last row is full
(2 buttons per row for menu messages, 4 for inlined ones).  No validation of
the label is performed here. -/
def add_button (m : MsgData) (label : String) (callback : Callback)
    (btype : ButtonType) (args : Option BtnArgs) (notification : Bool)
    (new_row : Bool) (web_app_url : String) : MsgData :=
  let buttons_per_row := if ¬ m.inlined then 2 else 4
  let kb := if m.keyboard = [] then [[]] else m.keyboard
  let btn := menu_button_init label callback btype args notification web_app_url
  if new_row ∨ (kb.getLastD []).length = buttons_per_row then
    { m with keyboard := kb ++ [[btn]] }
  else
    { m with keyboard := kb.dropLast ++ [kb.getLastD [] ++ [btn]] }

/-- BaseMessage.is_alive: stamp the message with the current instant. -/
def is_alive (m : MsgData) (now : Nat) : MsgData :=
  { m with time_alive := some now }

/-- BaseMessage.has_expired: reading `time_alive` on a message that was never
marked alive raises AttributeError (the attribute is only declared, never
initialized); otherwise compare the stamp plus the expiry period with now. -/
def has_expired (m : MsgData) (now : Nat) : Res Bool :=
  match m.time_alive with
  | none => .exn .attributeError
  | some t => .ok (decide (t + m.expiry_period < now))

/-- Flattened list of keyboard button labels, as used by the change diff
(`[y.label for x in keyboard for y in x]`). -/
def flatLabels (kb : List (List MenuButton)) : List String :=
  kb.flatten.map MenuButton.label

/-! ### Generated keyboards (models.py) -/

/-- One generated inline-keyboard button. -/
inductive InlineBtn where
  | callbackBtn (text : String) (data : String)
  | linkBtn (text : String) (url : String)
  | webAppBtn (text : String) (url : String)
  deriving Repr, DecidableEq

/-- Per-button loop of `gen_inline_keyboard_content`: raises ValueError when
the message label or the button label contains the separator. -/
def gen_inline_row (mlabel : String) : List MenuButton → Res (List InlineBtn)
  | [] => .ok []
  | btn :: rest =>
    if containsSub mlabel SEPARATOR ∨ containsSub btn.label SEPARATOR then
      .exn (.valueError "Forbidden character")
    else
      let ib :=
        if btn.web_app_url ≠ "" ∧ validators_url btn.web_app_url then
          if btn.btype = ButtonType.LINK then InlineBtn.linkBtn btn.label btn.web_app_url
          else InlineBtn.webAppBtn btn.label btn.web_app_url
        else InlineBtn.callbackBtn btn.label (mlabel ++ SEPARATOR ++ btn.label)
      match gen_inline_row mlabel rest with
      | .exn e => .exn e
      | .ok rs => .ok (ib :: rs)

/-- Per-row `input_field` update: when the field is still unset and the row is
non-empty, it becomes the label of the row's first button. -/
def row_field (field : String) (row : List MenuButton) : String :=
  if field = "" then (match row with | [] => field | b :: _ => b.label) else field

/-- Row loop of `gen_inline_keyboard_content`; threads the `input_field`
mutation (set from the first button of the first non-empty row when unset),
which persists even when a later button raises. -/
def gen_inline_rows (mlabel : String) (rows : List (List MenuButton))
    (field : String) : String × Res (List (List InlineBtn)) :=
  match rows with
  | [] => (field, .ok [])
  | row :: rest =>
    let field1 := row_field field row
    match gen_inline_row mlabel row with
    | .exn e => (field1, .exn e)
    | .ok ibs =>
      let k := gen_inline_rows mlabel rest field1
      match k.2 with
      | .exn e => (k.1, .exn e)
      | .ok rs => (k.1, .ok (ibs :: rs))

/-- BaseMessage.gen_inline_keyboard_content: validates labels against the
separator (this is where the ValueError is raised) and builds the inline
keyboard; also mutates `input_field`. -/
def gen_inline_keyboard_content (m : MsgData) : MsgData × Res (List (List InlineBtn)) :=
  let (field, r) := gen_inline_rows m.label m.keyboard m.input_field
  ({ m with input_field := field }, r)

/-- One generated reply-keyboard button. -/
structure KbBtn where
  text : String
  web_app : Option String
  deriving Repr, DecidableEq

/-- Generated reply keyboard (ReplyKeyboardMarkup). -/
structure ReplyKb where
  rows : List (List KbBtn)
  input_field_placeholder : Option String
  deriving Repr, DecidableEq

/-- Row loop of `gen_keyboard_content`, threading the `input_field`
mutation. -/
def gen_reply_rows (field : String) : List (List MenuButton) → String × List (List KbBtn)
  | [] => (field, [])
  | row :: rest =>
    let field1 := row_field field row
    let rowBtns := row.map (fun btn =>
      if btn.web_app_url ≠ "" ∧ validators_url btn.web_app_url then
        KbBtn.mk btn.label (some btn.web_app_url)
      else KbBtn.mk btn.label none)
    let (field2, rs) := gen_reply_rows field1 rest
    (field2, rowBtns :: rs)

/-- BaseMessage.gen_keyboard_content (reply keyboard for menu messages); never
raises. -/
def gen_keyboard_content (m : MsgData) : MsgData × ReplyKb :=
  let (field, rows) := gen_reply_rows m.input_field m.keyboard
  ({ m with input_field := field },
   ReplyKb.mk rows (if field ≠ "" ∧ field ≠ "<disable>" then some field else none))

/-! ### Session state (navigation.py: NavigationHandler) -/

/-- Poll message returned by the transport (question, options, message id). -/
structure PollMsg where
  question : String
  options : List String
  message_id : Int
  deriving Repr, DecidableEq

/-- Per-conversation session state of a NavigationHandler.  `store` is the
object heap (reference to BaseMessage state); `menu_queue` and
`message_queue` hold references, index 0 first pushed, last element most
recent.  `poll_job` models whether the scheduler holds a job under the
session's poll job id. -/
structure Session where
  store : Nat → MsgData
  menu_queue : List Nat
  message_queue : List Nat
  poll : Option PollMsg
  poll_callback : Option Callback
  poll_job : Bool

/-- Read a message object from the heap. -/
def Session.get (s : Session) (r : Nat) : MsgData := s.store r

/-- In-place mutation of a message object. -/
def Session.set (s : Session) (r : Nat) (d : MsgData) : Session :=
  { s with store := fun x => if x = r then d else s.store x }

/-- Machine state threaded through an operation: the session plus the trace of
pending transport answers (one consumed per bot call; an exhausted trace
answers success). -/
structure St where
  sess : Session
  trs : List SendResult

/-- Consume the next transport answer. -/
def St.take (σ : St) : SendResult × St :=
  match σ.trs with
  | [] => (.sent 0, σ)
  | r :: rest => (r, { σ with trs := rest })

/-- NavigationHandler.get_message: first tracked application message whose
label matches. -/
def get_message (s : Session) (label_message : String) : Option Nat :=
  s.message_queue.find? (fun r => (s.get r).label = label_message)

/-- NavigationHandler._delete_queued_message: `kill_message` (a log), then, if
the object is queued, remove it and issue the transport delete (an unguarded
bot call: a BadRequest answer raises). -/
def delete_queued_message (σ : St) (mref : Nat) : St × List Effect × Res Unit :=
  if mref ∈ σ.sess.message_queue then
    let σ1 : St :=
      { σ with sess := { σ.sess with message_queue := σ.sess.message_queue.erase mref } }
    let tk := σ1.take
    (tk.2, [Effect.deleteMsg (tk.2.sess.get mref).message_id],
      match tk.1 with
      | .sent _ => .ok ()
      | .badRequest => .exn .telegramBadRequest)
  else (σ, [], .ok ())

/-- Shared tail of goto_menu after a successful send: mark alive, record the
external id, push onto the menu queue. -/
def menu_push (σ : St) (mref : Nat) (mid : Int) (now : Nat) (effs : List Effect) :
    St × List Effect × Res Int :=
  let m := is_alive (σ.sess.get mref) now
  let m := { m with message_id := mid }
  let s1 := (σ.sess.set mref m)
  ({ σ with sess := { s1 with menu_queue := s1.menu_queue ++ [mref] } }, effs, .ok mid)

/-- NavigationHandler.goto_menu: render the reply keyboard (mutating
`input_field`), send the menu via the transport (photo path catches
BadRequest and yields None, plain-text path raises), then on success mark
alive, record the id and push; on failure return -1 without pushing. -/
def goto_menu (σ : St) (mref : Nat) (content : String) (now : Nat) :
    St × List Effect × Res Int :=
  let m1 := (gen_keyboard_content (σ.sess.get mref)).1
  let σ1 : St := { σ with sess := σ.sess.set mref m1 }
  let tk := σ1.take
  if m1.picture ≠ "" then
    match tk.1 with
    | .badRequest => (tk.2, [Effect.sendPhoto m1.picture content], .ok (-1))
    | .sent mid => menu_push tk.2 mref mid now [Effect.sendPhoto m1.picture content]
  else
    match tk.1 with
    | .badRequest => (tk.2, [Effect.sendMessage content], .exn .telegramBadRequest)
    | .sent mid => menu_push tk.2 mref mid now [Effect.sendMessage content]

/-- NavigationHandler.goto_home: no-op at depth one; otherwise pop every entry
(the last popped is the bottom/root) and re-send that entry via goto_menu. -/
def goto_home (σ : St) (content : String) (now : Nat) : St × List Effect × Res Int :=
  match σ.sess.menu_queue with
  | [] => (σ, [], .ok (-1))
  | [root] => (σ, [], .ok ((σ.sess.get root).message_id))
  | root :: _ :: _ =>
    goto_menu { σ with sess := { σ.sess with menu_queue := [] } } root content now

/-- Shared tail of _send_app_message after a successful send: record the id,
append to the application-message queue, then snapshot content and
keyboard. -/
def app_push (σ : St) (mref : Nat) (mid : Int) (content : String) (effs : List Effect) :
    St × List Effect × Res Int :=
  let m := σ.sess.get mref
  let m := { m with message_id := mid }
  let s1 := σ.sess.set mref m
  let s2 := { s1 with message_queue := s1.message_queue ++ [mref] }
  let m2 := { m with content_previous := content, keyboard_previous := m.keyboard }
  ({ σ with sess := s2.set mref m2 }, effs, .ok mid)

/-- First half of NavigationHandler._send_app_message: append the
disambiguating suffix when the label has no underscore yet; when some
tracked message already carries the (post-suffix) label, the source calls
`_delete_queued_message(message)` on the message being sent, not on the
tracked one it found. -/
def send_app_prepare (σ : St) (mref : Nat) (label : String) : St × List Effect × Res Unit :=
  let m0 := σ.sess.get mref
  let m1 := if ¬ containsSub m0.label "_" then { m0 with label := m0.label ++ "_" ++ label } else m0
  let σ1 : St := { σ with sess := σ.sess.set mref m1 }
  match get_message σ1.sess m1.label with
  | some _ => delete_queued_message σ1 mref
  | none => (σ1, [], Res.ok ())

/-- Second half of NavigationHandler._send_app_message: mark alive, build the
inline keyboard (may raise ValueError), send, and on success record the id,
enqueue and snapshot. -/
def send_app_send (σ2 : St) (mref : Nat) (content : String) (now : Nat)
    (e1 : List Effect) : St × List Effect × Res Int :=
  let m2 := is_alive (σ2.sess.get mref) now
  let σ3 : St := { σ2 with sess := σ2.sess.set mref m2 }
  let gk := gen_inline_keyboard_content m2
  let σ4 : St := { σ3 with sess := σ3.sess.set mref gk.1 }
  match gk.2 with
  | .exn e => (σ4, e1, .exn e)
  | .ok _ =>
    let tk := σ4.take
    if gk.1.picture ≠ "" then
      match tk.1 with
      | .badRequest => (tk.2, e1 ++ [Effect.sendPhoto gk.1.picture content], .ok (-1))
      | .sent mid => app_push tk.2 mref mid content (e1 ++ [Effect.sendPhoto gk.1.picture content])
    else
      match tk.1 with
      | .badRequest => (tk.2, e1 ++ [Effect.sendMessage content], .exn .telegramBadRequest)
      | .sent mid => app_push tk.2 mref mid content (e1 ++ [Effect.sendMessage content])

/-- NavigationHandler._send_app_message, composed from its two halves. -/
def send_app_message (σ : St) (mref : Nat) (label content : String) (now : Nat) :
    St × List Effect × Res Int :=
  let del := send_app_prepare σ mref label
  match del.2.2 with
  | .exn e => (del.1, del.2.1, .exn e)
  | .ok _ => send_app_send del.1 mref content now del.2.1

/-- NavigationHandler._message_check_changes: compare the fresh content with
`content_previous` and the flattened label lists of the current and previous
keyboards; when both are identical report no change (and leave the snapshots
alone), otherwise update both snapshots — before any transport call — and
report a change. -/
def message_check_changes (m : MsgData) (content : String) : Option MsgData :=
  let content_identical := content = m.content_previous
  let keyboard_identical := flatLabels m.keyboard_previous = flatLabels m.keyboard
  if content_identical ∧ keyboard_identical then none
  else some { m with content_previous := content, keyboard_previous := m.keyboard }

/-- NavigationHandler.edit_message: locate the tracked message by the label of
the argument (false when untracked); run the change diff (false, no
transport, when unchanged); otherwise the snapshots are already updated,
the inline keyboard is rebuilt (may raise ValueError), and the transport
edit is issued with BadRequest caught and turned into false. -/
def edit_message (σ : St) (mlabel content : String) : St × List Effect × Res Bool :=
  match get_message σ.sess mlabel with
  | none => (σ, [], .ok false)
  | some mref =>
    let m := σ.sess.get mref
    match message_check_changes m content with
    | none => (σ, [], .ok false)
    | some m1 =>
      let σ1 : St := { σ with sess := σ.sess.set mref m1 }
      let gk := gen_inline_keyboard_content m1
      let σ2 : St := { σ1 with sess := σ1.sess.set mref gk.1 }
      match gk.2 with
      | .exn e => (σ2, [], .exn e)
      | .ok _ =>
        let eff := if gk.1.picture ≠ "" then Effect.editCaption gk.1.message_id content
                   else Effect.editText gk.1.message_id content
        let tk := σ2.take
        match tk.1 with
        | .sent _ => (tk.2, [eff], .ok true)
        | .badRequest => (tk.2, [eff], .ok false)

/-- Helper of capture_user_input: Python loop
`for last_app_message in message_queue[::-1]: if app.time_alive > best.time_alive: best := app`;
reading a missing `time_alive` attribute raises AttributeError. -/
def capture_pick (store : Nat → MsgData) : Nat → List Nat → Res Nat
  | best, [] => .ok best
  | best, m :: rest =>
    match (store m).time_alive, (store best).time_alive with
    | some tm, some tb => capture_pick store (if tb < tm then m else best) rest
    | _, _ => .exn .attributeError

/-- NavigationHandler.capture_user_input: forward the text to the `text_input`
hook of the most recently alive tracked message (menu-stack top or any
application message); reading `menu_queue[-1]` of an empty stack raises. -/
def capture_user_input (σ : St) (label : String) : St × List Effect × Res (Option Int) :=
  match σ.sess.menu_queue.getLast? with
  | none => (σ, [], .exn .indexError)
  | some lastMenu =>
    match capture_pick σ.sess.store lastMenu σ.sess.message_queue.reverse with
    | .exn e => (σ, [], .exn e)
    | .ok target => (σ, [Effect.textInputCall target label], .ok none)

/-- First menu, scanning the stack from the most recent entry backwards, that
owns a button with the given label. -/
def find_menu_button (s : Session) (label : String) : Option MenuButton :=
  s.menu_queue.reverse.findSome? (fun r => (s.get r).get_button label)

/-- NavigationHandler.select_menu_button: reserved labels Back (no-op at depth
one, otherwise pop the top, pop once more when anything remains, and
re-send via goto_menu) and Home (delegate to goto_home); otherwise search
the stack for a matching button and dispatch on its callback (navigate to a
menu, send an application message with optional return home, or invoke a
handler); an unmatched label becomes free-text input. -/
def select_menu_button (σ : St) (label : String) (c1 c2 : String) (now : Nat) :
    St × List Effect × Res (Option Int) :=
  if label = "Back" then
    match σ.sess.menu_queue with
    | [] => (σ, [], .exn .indexError)
    | [root] => (σ, [], .ok (some ((σ.sess.get root).message_id)))
    | _ :: _ :: _ =>
      let q1 := σ.sess.menu_queue.dropLast
      let gm := goto_menu { σ with sess := { σ.sess with menu_queue := q1.dropLast } }
        (q1.getLastD 0) c1 now
      (gm.1, gm.2.1, gm.2.2.map some)
  else if label = "Home" then
    let gh := goto_home σ c1 now
    (gh.1, gh.2.1, gh.2.2.map some)
  else
    match find_menu_button σ.sess label with
    | some btn =>
      match btn.callback with
      | .msg tref =>
        if (σ.sess.get tref).inlined then
          let sa := send_app_message σ tref label c1 now
          match sa.2.2 with
          | .exn e => (sa.1, sa.2.1, .exn e)
          | .ok mid =>
            if (sa.1.sess.get tref).home_after then
              let gh := goto_home sa.1 c2 now
              (gh.1, sa.2.1 ++ gh.2.1, gh.2.2.map some)
            else (sa.1, sa.2.1, .ok (some mid))
        else
          let gm := goto_menu σ tref c1 now
          (gm.1, gm.2.1, gm.2.2.map some)
      | .func _ => (σ, [Effect.handlerCall], .ok (some 0))
      | .noCb => (σ, [], .ok (some 0))
    | none => capture_user_input σ label

/-! ### Expiry sweep (navigation.py: _expiry_date_checker) -/

/-- Python `for message in self._message_queue` with in-loop removal: the
iterator advances by index while `remove` shifts later elements left, so a
removal skips the following entry; modelled index-exactly. -/
def checker_loop (σ : St) (i : Nat) (now : Nat) : St × List Effect × Res Unit :=
  if h : i < σ.sess.message_queue.length then
    let mref := σ.sess.message_queue[i]
    match has_expired (σ.sess.get mref) now with
    | .exn e => (σ, [], .exn e)
    | .ok true =>
      let del := delete_queued_message σ mref
      match del.2.2 with
      | .exn e => (del.1, del.2.1, .exn e)
      | .ok _ =>
        let k := checker_loop del.1 (i + 1) now
        (k.1, del.2.1 ++ k.2.1, k.2.2)
    | .ok false => checker_loop σ (i + 1) now
  else (σ, [], .ok ())
termination_by σ.sess.message_queue.length - i
decreasing_by
  · have hlen : ∀ r : Nat, (delete_queued_message σ r).1.sess.message_queue.length ≤
        σ.sess.message_queue.length := by
      intro r
      unfold delete_queued_message
      by_cases hm : r ∈ σ.sess.message_queue
      · simp only [hm, if_pos, St.take]
        cases σ.trs with
        | nil => simpa using (σ.sess.message_queue.length_erase_le r)
        | cons a b => simpa using (σ.sess.message_queue.length_erase_le r)
      · simp [hm]
    have := hlen (σ.sess.message_queue[i])
    omega
  · omega

/-- NavigationHandler._expiry_date_checker: delete every expired application
message, then, when the stack is at depth at least two and its top entry
has expired, collapse to home. -/
def expiry_date_checker (σ : St) (now : Nat) (content : String) : St × List Effect × Res Unit :=
  let k := checker_loop σ 0 now
  match k.2.2 with
  | .exn e => (k.1, k.2.1, .exn e)
  | .ok _ =>
    if 2 ≤ k.1.sess.menu_queue.length then
      match k.1.sess.menu_queue.getLast? with
      | none => (k.1, k.2.1, .ok ())
      | some top =>
        match has_expired (k.1.sess.get top) now with
        | .exn e => (k.1, k.2.1, .exn e)
        | .ok true =>
          let gh := goto_home k.1 content now
          (gh.1, k.2.1 ++ gh.2.1, gh.2.2.map (fun _ => ()))
        | .ok false => (k.1, k.2.1, .ok ())
    else (k.1, k.2.1, .ok ())

/-! ### Poll sub-protocol (navigation.py) -/

/-- NavigationHandler.poll_delete: when a poll message is pending, issue the
transport delete; a BadRequest answer is caught and logged.  The poll field
itself is not cleared here. -/
def poll_delete (σ : St) : St × List Effect × Res Unit :=
  match σ.sess.poll with
  | none => (σ, [], .ok ())
  | some p => ((σ.take).2, [Effect.deleteMsg p.message_id], .ok ())

/-- NavigationHandler.send_poll: when the scheduler already holds a job under
the poll job id, first delete the pending poll; send the poll (an unguarded
bot call), store the returned poll message, and schedule the one-shot
deadline job (replacing any existing one). -/
def send_poll (σ : St) (question : String) (options : List String) :
    St × List Effect × Res Unit :=
  let pd := if σ.sess.poll_job then poll_delete σ else (σ, [], Res.ok ())
  let options1 := options.map emoji_replace
  let tk := pd.1.take
  let effs := pd.2.1 ++ [Effect.sendPollMsg (emoji_replace question) options1]
  match tk.1 with
  | .badRequest => (tk.2, effs, .exn .telegramBadRequest)
  | .sent mid =>
    let s :=
      { tk.2.sess with
        poll := some (PollMsg.mk (emoji_replace question) options1 mid)
        poll_job := true }
    ({ tk.2 with sess := s }, effs, .ok ())

/-- NavigationHandler.poll_answer: when no poll is pending or the bound
callback is absent or not callable, log and return; otherwise invoke the
callback with the selected option's text (IndexError on an out-of-range
answer), delete the poll message, remove the deadline job when present, and
clear the pending poll. -/
def poll_answer (σ : St) (answer_id : Nat) : St × List Effect × Res Unit :=
  match σ.sess.poll, σ.sess.poll_callback with
  | some p, some cb =>
    if cb.callableB then
      if h : answer_id < p.options.length then
        let text := p.options[answer_id]
        let pd := poll_delete σ
        let s1 := if pd.1.sess.poll_job
                  then { pd.1.sess with poll_job := false }
                  else pd.1.sess
        ({ pd.1 with sess := { s1 with poll := none } },
          Effect.pollCallback text :: pd.2.1, .ok ())
      else (σ, [], .exn .indexError)
    else (σ, [], .ok ())
  | _, _ => (σ, [], .ok ())

/-! ### Inline-button callback routing (navigation.py) -/

/-- NavigationHandler.app_message_button_callback: unpack the token with
`split(SEPARATOR)` (Python split on every occurrence; unpacking anything but
exactly two parts raises ValueError); unknown message or button labels are a
logged no-op; otherwise branch on the button type — chat-action hints,
the poll sub-protocol, picture/sticker/message sends with fixed
acknowledgements, or the default path acknowledging with the handler's
return value, refreshing the TTL and re-running the change-diff edit.
`handlerResult` and `content` are the outputs of the application-supplied
handler and content producer. -/
def app_message_button_callback (σ : St) (token callback_id : String)
    (handlerResult content : String) (now : Nat) : St × List Effect × Res Unit :=
  match pySplit token SEPARATOR with
  | [label_message, label_action] =>
    match get_message σ.sess label_message with
    | none => (σ, [], .ok ())
    | some mref =>
      match (σ.sess.get mref).get_button label_action with
      | none => (σ, [], .ok ())
      | some btn =>
        let hint : Bool :=
          btn.btype = ButtonType.PICTURE ∨ btn.btype = ButtonType.STICKER ∨
            btn.btype = ButtonType.MESSAGE
        let hk := if hint then ((σ.take).2, [Effect.chatAction],
            match (σ.take).1 with
            | SendResult.sent _ => Res.ok ()
            | SendResult.badRequest => Res.exn PyErr.telegramBadRequest)
          else (σ, [], Res.ok ())
        let σh := hk.1
        let eh := hk.2.1
        match hk.2.2 with
        | .exn e => (σh, eh, .exn e)
        | .ok _ =>
          if btn.btype = ButtonType.POLL then
            match btn.args with
            | some (BtnArgs.pollArgs q opts) =>
              let sp := send_poll σh q opts
              match sp.2.2 with
              | .exn e => (sp.1, eh ++ sp.2.1, .exn e)
              | .ok _ =>
                let σ2 : St := { sp.1 with sess := { sp.1.sess with poll_callback := some btn.callback } }
                let tk := σ2.take
                let effs := eh ++ sp.2.1 ++ [Effect.answerCallback callback_id "Select an answer..."]
                match tk.1 with
                | .badRequest => (tk.2, effs, .exn .telegramBadRequest)
                | .sent _ => (tk.2, effs, .ok ())
            | _ => (σh, eh, .exn .typeError)
          else if ¬ btn.callback.callableB then (σh, eh, .ok ())
          else
            let ec := eh ++ [Effect.handlerCall]
            if btn.btype = ButtonType.PICTURE then
              let σ1 := (σh.take).2
              let e1 := ec ++ [Effect.sendPhoto handlerResult ""]
              let tk := σ1.take
              let e2 := e1 ++ [Effect.answerCallback callback_id "Picture sent!"]
              match tk.1 with
              | .badRequest => (tk.2, e2, .exn .telegramBadRequest)
              | .sent _ => (tk.2, e2, .ok ())
            else if btn.btype = ButtonType.STICKER then
              let σ1 := (σh.take).2
              let e1 := ec ++ [Effect.sendSticker handlerResult]
              let tk := σ1.take
              let e2 := e1 ++ [Effect.answerCallback callback_id "Sticker sent!"]
              match tk.1 with
              | .badRequest => (tk.2, e2, .exn .telegramBadRequest)
              | .sent _ => (tk.2, e2, .ok ())
            else if btn.btype = ButtonType.MESSAGE then
              let tk1 := σh.take
              let e1 := ec ++ [Effect.sendMessage handlerResult]
              match tk1.1 with
              | .badRequest => (tk1.2, e1, .exn .telegramBadRequest)
              | .sent _ =>
                let tk2 := tk1.2.take
                let e2 := e1 ++ [Effect.answerCallback callback_id "Message sent!"]
                match tk2.1 with
                | .badRequest => (tk2.2, e2, .exn .telegramBadRequest)
                | .sent _ => (tk2.2, e2, .ok ())
            else
              let tk1 := σh.take
              let e1 := ec ++ [Effect.answerCallback callback_id handlerResult]
              match tk1.1 with
              | .badRequest => (tk1.2, e1, .exn .telegramBadRequest)
              | .sent _ =>
                let m := is_alive (tk1.2.sess.get mref) now
                let σ2 : St := { tk1.2 with sess := tk1.2.sess.set mref m }
                let em := edit_message σ2 m.label content
                (em.1, e1 ++ em.2.1, em.2.2.map (fun _ => ()))
  | _ => (σ, [], .exn (.valueError "unpack"))

/-! ### Operation sequences for the session invariants -/

/-- One inbound navigation event or one timer tick, with the oracles it
consumes (content-producer outputs and the current instant). -/
inductive NavOp where
  | opGotoMenu (mref : Nat) (content : String) (now : Nat)
  | opGotoHome (content : String) (now : Nat)
  | opSelect (label : String) (c1 c2 : String) (now : Nat)
  | opSweep (now : Nat) (content : String)

/-- Apply one operation, keeping the resulting state (a raised exception is
caught upstream by the framework's error handler, and the session keeps the
mutations performed before the raise). -/
def applyOp (σ : St) : NavOp → St
  | .opGotoMenu mref c now => (goto_menu σ mref c now).1
  | .opGotoHome c now => (goto_home σ c now).1
  | .opSelect label c1 c2 now => (select_menu_button σ label c1 c2 now).1
  | .opSweep now c => (expiry_date_checker σ now c).1

/-- Apply a sequence of operations in order. -/
def applyOps (σ : St) : List NavOp → St
  | [] => σ
  | op :: rest => applyOps (applyOp σ op) rest

/-- Every pending transport answer is a success. -/
def AllSent (trs : List SendResult) : Prop :=
  ∀ r ∈ trs, ∃ mid, r = SendResult.sent mid

/-- Every message tracked in the menu stack or the application-message queue
has been marked alive (its `time_alive` attribute is set). -/
def AliveInv (s : Session) : Prop :=
  ∀ r ∈ s.menu_queue ++ s.message_queue, (s.get r).time_alive ≠ none

/-- Aliveness of a concrete session is decidable, so witnesses can evaluate
it. -/
instance aliveInvDecidable (s : Session) : Decidable (AliveInv s) := by
  unfold AliveInv
  infer_instance

/-! ### Concrete instances used by counterexamples and witnesses -/

/-- Heap filler for references that are never used. -/
def defaultMsg : MsgData := base_message_init "" "" none false false true ""

/-- Tracked application message: label already suffixed, alive, sent as id 5. -/
def mOptA : MsgData :=
  { base_message_init "opt" "" none true false true "" with
    label := "opt_x", time_alive := some 0, message_id := 5 }

/-- Fresh application message of the same kind, label not yet suffixed. -/
def mOptB : MsgData := base_message_init "opt" "" none true false true ""

/-- Session in which message 1 (label opt_x) is tracked and message 2 is about
to be sent with the same post-suffix label. -/
def sessC2 : Session :=
  { store := fun r => if r = 1 then mOptA else if r = 2 then mOptB else defaultMsg
    menu_queue := [], message_queue := [1], poll := none, poll_callback := none,
    poll_job := false }

def stC2 : St := { sess := sessC2, trs := [SendResult.sent 9] }

/-- Tracked application card with last-transmitted content snapshot "a". -/
def mCard : MsgData :=
  { base_message_init "card" "" none true false true "" with
    label := "card_x", time_alive := some 0, message_id := 7, content_previous := "a" }

def sessC1 : Session :=
  { store := fun r => if r = 1 then mCard else defaultMsg
    menu_queue := [], message_queue := [1], poll := none, poll_callback := none,
    poll_job := false }

/-- The transport will reject the next edit. -/
def stC1 : St := { sess := sessC1, trs := [SendResult.badRequest] }

/-- Root menu carrying a picture (so the failed re-send takes the guarded
photo path and returns None, exactly as in the source). -/
def mRootPic : MsgData :=
  { base_message_init "root" "pic.png" none false false true "" with
    time_alive := some 0, message_id := 1 }

def mSub : MsgData :=
  { base_message_init "sub" "" none false false true "" with
    time_alive := some 0, message_id := 2 }

def sessDepth2 : Session :=
  { store := fun r => if r = 1 then mRootPic else if r = 2 then mSub else defaultMsg
    menu_queue := [1, 2], message_queue := [], poll := none, poll_callback := none,
    poll_job := false }

/-- Depth-two stack whose re-send will be rejected by the transport. -/
def stC3 : St := { sess := sessDepth2, trs := [SendResult.badRequest] }

/-- Same depth-two stack, separate instance for the home-collapse claim. -/
def sessDepth2H : Session :=
  { store := fun r => if r = 1 then mRootPic else if r = 2 then mSub else defaultMsg
    menu_queue := [1, 2], message_queue := [], poll := none, poll_callback := none,
    poll_job := false }

def stC7 : St := { sess := sessDepth2H, trs := [SendResult.badRequest] }

/-- Depth-one stack, root with message id 11, for the Back-at-root witness. -/
def mRoot11 : MsgData :=
  { base_message_init "root" "" none false false true "" with
    time_alive := some 0, message_id := 11 }

def sessRootOnly : Session :=
  { store := fun r => if r = 1 then mRoot11 else defaultMsg
    menu_queue := [1], message_queue := [], poll := none, poll_callback := none,
    poll_job := false }

def stC8 : St := { sess := sessRootOnly, trs := [] }

/-- Depth-three stack for the Back-pops-two witness. -/
def sessDepth3 : Session :=
  { store := fun r => if r = 1 then mRoot11 else if r = 2 then mSub else if r = 3 then mSub else defaultMsg
    menu_queue := [1, 2, 3], message_queue := [], poll := none, poll_callback := none,
    poll_job := false }

def stC8b : St := { sess := sessDepth3, trs := [SendResult.sent 12] }

/-- Session awaiting a poll answer: question Pick one, options A and B, poll
message id 42, deadline job scheduled. -/
def sessPoll : Session :=
  { store := fun _ => defaultMsg, menu_queue := [], message_queue := [],
    poll := some (PollMsg.mk "Pick one" ["A", "B"] 42),
    poll_callback := some (Callback.func 0), poll_job := true }

def stC9 : St := { sess := sessPoll, trs := [SendResult.sent 0] }

/-- Idle session with nothing tracked. -/
def sessIdle : Session :=
  { store := fun _ => defaultMsg, menu_queue := [], message_queue := [],
    poll := none, poll_callback := none, poll_job := false }

def stC5 : St := { sess := sessIdle, trs := [] }

/-- Bare menu message for the label-validation claims. -/
def mMenu : MsgData := base_message_init "menu" "" none false false true ""

/-- A transport edit effect (editMessageText or editMessageCaption). -/
def isEditEffect : Effect → Bool
  | Effect.editText _ _ => true
  | Effect.editCaption _ _ => true
  | _ => false

/-- Depth-one state used by the home-collapse witness. -/
def stC7w : St := { sess := sessRootOnly, trs := [SendResult.sent 3] }

/-- Tracked message and alive queue used by the expiry-sweep witness. -/
def sessC10 : Session :=
  { store := fun r => if r = 1 then mOptA else defaultMsg
    menu_queue := [], message_queue := [1], poll := none, poll_callback := none,
    poll_job := false }

def stC10 : St := { sess := sessC10, trs := [SendResult.sent 0] }

/-- Tracked options card with a Notify button, used by the callback-routing
witness. -/
def mOptions : MsgData :=
  { base_message_init "options" "" none true false true "" with
    label := "options", time_alive := some 0, message_id := 6,
    keyboard := [[menu_button_init "action_button" (Callback.func 4)
      ButtonType.NOTIFICATION none true ""]] }

def sessC5w : Session :=
  { store := fun r => if r = 1 then mOptions else defaultMsg
    menu_queue := [], message_queue := [1], poll := none, poll_callback := none,
    poll_job := false }

def stC5w : St := { sess := sessC5w, trs := [] }

/-! ## Helper lemmas -/

@[simp]
theorem Session.get_set_self (s : Session) (r : Nat) (d : MsgData) :
    (s.set r d).get r = d := by
  simp [Session.set, Session.get]

theorem Session.get_set_ne (s : Session) (r x : Nat) (d : MsgData) (h : x ≠ r) :
    (s.set r d).get x = s.get x := by
  simp [Session.set, Session.get, h]

@[simp]
theorem Session.set_menu_queue (s : Session) (r : Nat) (d : MsgData) :
    (s.set r d).menu_queue = s.menu_queue := rfl

@[simp]
theorem Session.set_message_queue (s : Session) (r : Nat) (d : MsgData) :
    (s.set r d).message_queue = s.message_queue := rfl

theorem allSent_of_suffix {t u : List SendResult} (h : t <:+ u) (ha : AllSent u) :
    AllSent t := by
  intro r hr
  exact ha r (h.subset hr)

@[simp]
theorem St.take_sess (σ : St) : (St.take σ).2.sess = σ.sess := by
  unfold St.take
  cases σ.trs <;> rfl

theorem take_trs_suffix (σ : St) : (St.take σ).2.trs <:+ σ.trs := by
  cases htr : σ.trs with
  | nil => simp [St.take, htr]
  | cons a b => simp [St.take, htr]

theorem take_sent_of_allSent (σ : St) (h : AllSent σ.trs) :
    ∃ mid, (St.take σ).1 = SendResult.sent mid := by
  cases htr : σ.trs with
  | nil => exact ⟨0, by simp [St.take, htr]⟩
  | cons a b =>
    have := h a (by rw [htr]; exact List.mem_cons_self a b)
    obtain ⟨mid, rfl⟩ := this
    exact ⟨mid, by simp [St.take, htr]⟩

theorem take_allSent (σ : St) (h : AllSent σ.trs) : AllSent (St.take σ).2.trs :=
  allSent_of_suffix (take_trs_suffix σ) h

@[simp]
theorem gen_keyboard_content_fields (m : MsgData) :
    (gen_keyboard_content m).1.keyboard = m.keyboard ∧
    (gen_keyboard_content m).1.label = m.label ∧
    (gen_keyboard_content m).1.picture = m.picture ∧
    (gen_keyboard_content m).1.time_alive = m.time_alive ∧
    (gen_keyboard_content m).1.content_previous = m.content_previous ∧
    (gen_keyboard_content m).1.keyboard_previous = m.keyboard_previous ∧
    (gen_keyboard_content m).1.message_id = m.message_id ∧
    (gen_keyboard_content m).1.expiry_period = m.expiry_period ∧
    (gen_keyboard_content m).1.inlined = m.inlined ∧
    (gen_keyboard_content m).1.home_after = m.home_after :=
  ⟨rfl, rfl, rfl, rfl, rfl, rfl, rfl, rfl, rfl, rfl⟩

@[simp]
theorem gen_inline_keyboard_content_fields (m : MsgData) :
    (gen_inline_keyboard_content m).1.keyboard = m.keyboard ∧
    (gen_inline_keyboard_content m).1.label = m.label ∧
    (gen_inline_keyboard_content m).1.picture = m.picture ∧
    (gen_inline_keyboard_content m).1.time_alive = m.time_alive ∧
    (gen_inline_keyboard_content m).1.content_previous = m.content_previous ∧
    (gen_inline_keyboard_content m).1.keyboard_previous = m.keyboard_previous ∧
    (gen_inline_keyboard_content m).1.message_id = m.message_id ∧
    (gen_inline_keyboard_content m).1.expiry_period = m.expiry_period ∧
    (gen_inline_keyboard_content m).1.inlined = m.inlined ∧
    (gen_inline_keyboard_content m).1.home_after = m.home_after :=
  ⟨rfl, rfl, rfl, rfl, rfl, rfl, rfl, rfl, rfl, rfl⟩

theorem find?_congr {α : Type} (l : List α) (p q : α → Bool)
    (h : ∀ x ∈ l, p x = q x) : l.find? p = l.find? q := by
  induction l with
  | nil => rfl
  | cons a t ih =>
    have ha := h a (List.mem_cons_self a t)
    simp only [List.find?]
    rw [ha]
    cases q a
    · exact ih (fun x hx => h x (List.mem_cons_of_mem a hx))
    · rfl

/-- message_check_changes reports a change exactly by returning the message
with both snapshots replaced. -/
theorem message_check_changes_eq (m : MsgData) (c : String) (m1 : MsgData)
    (h : message_check_changes m c = some m1) :
    m1 = { m with content_previous := c, keyboard_previous := m.keyboard } := by
  unfold message_check_changes at h
  simp only at h
  split at h
  · exact absurd h (by simp)
  · simpa using h.symm

/-- With an all-success transport trace, goto_menu always pushes: the new menu
stack is the old one with the target appended, the application-message queue
is untouched, and the trace stays all-success. -/
theorem goto_menu_allSent (σ : St) (mref : Nat) (c : String) (now : Nat)
    (h : AllSent σ.trs) :
    (goto_menu σ mref c now).1.sess.menu_queue = σ.sess.menu_queue ++ [mref] ∧
    (goto_menu σ mref c now).1.sess.message_queue = σ.sess.message_queue ∧
    AllSent (goto_menu σ mref c now).1.trs := by
  have hst : AllSent ({ σ with sess := σ.sess.set mref (gen_keyboard_content (σ.sess.get mref)).1 } : St).trs := h
  obtain ⟨mid, hmid⟩ := take_sent_of_allSent _ hst
  have htrs := take_allSent _ hst
  unfold goto_menu menu_push
  simp only [hmid, htrs]
  split <;> simp [hmid, htrs]

theorem delete_queued_trs (σ : St) (mref : Nat) :
    (delete_queued_message σ mref).1.trs <:+ σ.trs := by
  unfold delete_queued_message
  split
  · exact take_trs_suffix _
  · exact List.suffix_refl _

theorem delete_queued_menu_queue (σ : St) (mref : Nat) :
    (delete_queued_message σ mref).1.sess.menu_queue = σ.sess.menu_queue := by
  unfold delete_queued_message
  split
  · simp
  · rfl

theorem delete_queued_store (σ : St) (mref : Nat) :
    (delete_queued_message σ mref).1.sess.store = σ.sess.store := by
  unfold delete_queued_message
  split
  · have : ∀ τ : St, (St.take τ).2.sess.store = τ.sess.store := by
      intro τ
      rw [St.take_sess]
    rw [this]
  · rfl

theorem delete_queued_message_queue (σ : St) (mref : Nat) :
    (delete_queued_message σ mref).1.sess.message_queue = σ.sess.message_queue.erase mref ∨
    (delete_queued_message σ mref).1.sess.message_queue = σ.sess.message_queue := by
  unfold delete_queued_message
  split
  · left
    simp
  · right
    rfl

theorem goto_menu_trs (σ : St) (mref : Nat) (c : String) (now : Nat) :
    (goto_menu σ mref c now).1.trs <:+ σ.trs := by
  have hsfx : (St.take ({ σ with sess := σ.sess.set mref (gen_keyboard_content (σ.sess.get mref)).1 } : St)).2.trs <:+ σ.trs :=
    take_trs_suffix _
  unfold goto_menu menu_push
  dsimp only
  split <;> split <;> simpa using hsfx

theorem goto_menu_message_queue (σ : St) (mref : Nat) (c : String) (now : Nat) :
    (goto_menu σ mref c now).1.sess.message_queue = σ.sess.message_queue := by
  unfold goto_menu menu_push
  dsimp only
  split <;> split <;> simp

theorem goto_menu_menu_queue (σ : St) (mref : Nat) (c : String) (now : Nat) :
    (goto_menu σ mref c now).1.sess.menu_queue = σ.sess.menu_queue ++ [mref] ∨
    (goto_menu σ mref c now).1.sess.menu_queue = σ.sess.menu_queue := by
  unfold goto_menu menu_push
  dsimp only
  split <;> split <;> simp

/-- The only exception goto_menu can raise is the transport's BadRequest (the
plain-text send is not guarded in the source). -/
theorem goto_menu_exn (σ : St) (mref : Nat) (c : String) (now : Nat) (e : PyErr)
    (h : (goto_menu σ mref c now).2.2 = .exn e) : e = PyErr.telegramBadRequest := by
  unfold goto_menu menu_push at h
  dsimp only at h
  split at h <;> split at h <;> simp_all

/-- With an all-success trace every stack with bottom entry `root` is collapsed
by goto_home to exactly `[root]`. -/
theorem goto_home_allSent (σ : St) (root : Nat) (c : String) (now : Nat)
    (h : AllSent σ.trs) (hq : σ.sess.menu_queue.head? = some root) :
    (goto_home σ c now).1.sess.menu_queue = [root] ∧
    (goto_home σ c now).1.sess.message_queue = σ.sess.message_queue ∧
    AllSent (goto_home σ c now).1.trs := by
  unfold goto_home
  cases hq2 : σ.sess.menu_queue with
  | nil => rw [hq2] at hq; exact absurd hq (by simp)
  | cons a t =>
    have ha : a = root := by rw [hq2] at hq; simpa using hq
    cases t with
    | nil =>
      refine ⟨by simp [hq2, ha], by simp [hq2], by simpa [hq2] using h⟩
    | cons b u =>
      subst ha
      have h3 := goto_menu_allSent { σ with sess := { σ.sess with menu_queue := [] } } a c now h
      simp only [hq2]
      exact ⟨by simpa using h3.1, by simpa using h3.2.1, h3.2.2⟩

theorem goto_home_trs (σ : St) (c : String) (now : Nat) :
    (goto_home σ c now).1.trs <:+ σ.trs := by
  unfold goto_home
  split
  · exact List.suffix_refl _
  · exact List.suffix_refl _
  · exact goto_menu_trs _ _ _ _

theorem goto_home_message_queue (σ : St) (c : String) (now : Nat) :
    (goto_home σ c now).1.sess.message_queue = σ.sess.message_queue := by
  unfold goto_home
  split
  · rfl
  · rfl
  · exact goto_menu_message_queue _ _ _ _

/-- The only exception goto_home can raise is the transport's BadRequest. -/
theorem goto_home_exn (σ : St) (c : String) (now : Nat) (e : PyErr)
    (h : (goto_home σ c now).2.2 = .exn e) : e = PyErr.telegramBadRequest := by
  unfold goto_home at h
  split at h
  · simp_all
  · simp_all
  · exact goto_menu_exn _ _ _ _ _ h

/-- Every exception gen_inline_row raises is the separator ValueError. -/
theorem gen_inline_row_exn_eq (mlabel : String) (row : List MenuButton) (e : PyErr)
    (h : gen_inline_row mlabel row = Res.exn e) :
    e = PyErr.valueError "Forbidden character" := by
  induction row with
  | nil => simp [gen_inline_row] at h
  | cons a t ih =>
    unfold gen_inline_row at h
    split at h
    · simpa using h.symm
    · dsimp only at h
      split at h
      · rename_i heq
        exact ih (by rw [heq]; simpa using h)
      · simp at h

theorem gen_inline_row_exn (mlabel : String) (row : List MenuButton) (b : MenuButton)
    (hb : b ∈ row) (hsep : containsSub b.label SEPARATOR = true) :
    gen_inline_row mlabel row = Res.exn (PyErr.valueError "Forbidden character") := by
  induction row with
  | nil => cases hb
  | cons a t ih =>
    unfold gen_inline_row
    split
    · rfl
    · rename_i hcond
      rcases List.mem_cons.mp hb with rfl | hbt
      · exact absurd (Or.inr hsep) hcond
      · rw [ih hbt]

theorem gen_inline_rows_exn (mlabel : String) (rows : List (List MenuButton))
    (field : String) (row : List MenuButton) (b : MenuButton)
    (hrow : row ∈ rows) (hb : b ∈ row) (hsep : containsSub b.label SEPARATOR = true) :
    (gen_inline_rows mlabel rows field).2 = Res.exn (PyErr.valueError "Forbidden character") := by
  induction rows generalizing field with
  | nil => cases hrow
  | cons r t ih =>
    unfold gen_inline_rows
    dsimp only
    rcases List.mem_cons.mp hrow with rfl | hrt
    · rw [gen_inline_row_exn mlabel row b hb hsep]
    · rcases hrr : gen_inline_row mlabel r with res | e
      · have hih := ih (row_field field r) hrt
        rcases hrec : (gen_inline_rows mlabel t (row_field field r)).2 with r2 | e2
        · rw [hrec] at hih
          exact absurd hih (by simp)
        · rw [hrec] at hih
          simp only [hrec]
          simpa using hih
      · simpa using (gen_inline_row_exn_eq mlabel r e hrr)

/-- C4 counterexample: `add_button` accepts the label "a##b" without raising
any validation error — the button is simply appended — contradicting the
claim that a label containing the separator fails at construction time. -/
theorem c4_counterexample :
    (add_button mMenu "a##b" Callback.noCb ButtonType.NOTIFICATION none true false
      "").keyboard.flatten.map MenuButton.label = ["a##b"] ∧
    (gen_inline_keyboard_content (add_button mMenu "a##b" Callback.noCb
      ButtonType.NOTIFICATION none true false "")).2
      = Res.exn (PyErr.valueError "Forbidden character") := by
  exact ⟨by decide, by decide⟩

/-- C4 (amended): `add_button` performs no validation — every label, whether
or not it contains the separator "##", is accepted and appended to the
keyboard; the ValueError is raised later, at inline-keyboard-generation time,
whenever some keyboard button's label contains the separator. -/
theorem c4_add_button_defers_validation :
    (∀ m label cb bt args notif nr url,
      (add_button m label cb bt args notif nr url).keyboard.flatten.map MenuButton.label
        = (if m.keyboard = [] then [[]] else m.keyboard).flatten.map MenuButton.label
            ++ [emoji_replace label]) ∧
    (∀ m b, b ∈ m.keyboard.flatten → containsSub b.label SEPARATOR = true →
      (gen_inline_keyboard_content m).2 = Res.exn (PyErr.valueError "Forbidden character")) := by
  constructor
  · intro m label cb bt args notif nr url
    unfold add_button
    dsimp only
    have hne : (if m.keyboard = [] then [[]] else m.keyboard) ≠ [] := by
      split
      · simp
      · assumption
    obtain ⟨ys, y, hys⟩ : ∃ ys y, (if m.keyboard = [] then [[]] else m.keyboard) = ys ++ [y] :=
      ⟨_, _, (List.dropLast_append_getLast hne).symm⟩
    rw [hys]
    split <;> split <;> simp [menu_button_init]
  · intro m b hb hsep
    obtain ⟨row, hrow, hbrow⟩ := List.mem_flatten.mp hb
    unfold gen_inline_keyboard_content
    dsimp only
    rw [gen_inline_rows_exn m.label m.keyboard m.input_field row b hrow hbrow hsep]

/-- C4 witness: a separator-free label is accepted, and a keyboard holding a
button whose label contains "##" makes keyboard generation raise. -/
theorem c4_witness :
    (add_button mMenu "ok" Callback.noCb ButtonType.NOTIFICATION none true false
      "").keyboard.flatten.map MenuButton.label = ["ok"] ∧
    (gen_inline_keyboard_content (add_button mMenu "a##b" Callback.noCb
      ButtonType.NOTIFICATION none true false "")).2
      = Res.exn (PyErr.valueError "Forbidden character") := by
  constructor
  · have h := c4_add_button_defers_validation.1 mMenu "ok" Callback.noCb
      ButtonType.NOTIFICATION none true false ""
    rw [h]
    decide
  · exact c4_add_button_defers_validation.2
      (add_button mMenu "a##b" Callback.noCb ButtonType.NOTIFICATION none true false "")
      (menu_button_init "a##b" Callback.noCb ButtonType.NOTIFICATION none true "")
      (by decide) (by decide)


/-- C5 counterexample: a callback token with no separator, and one with two
separators, both raise ValueError (Python tuple unpacking of
`token.split(SEPARATOR)`), instead of being a logged no-op as the claim
states; the two-separator case also shows the split is not "on the first
separator". -/
theorem c5_counterexample :
    app_message_button_callback stC5 "abc" "cid" "h" "c" 3
      = (stC5, [], Res.exn (PyErr.valueError "unpack")) ∧
    app_message_button_callback stC5 "a##b##c" "cid" "h" "c" 3
      = (stC5, [], Res.exn (PyErr.valueError "unpack")) := ⟨rfl, rfl⟩

/-- C5 (amended): the token is split on every occurrence of the separator and
must yield exactly two parts; for a token with exactly one separator whose
message label or button label is unknown, the call is a logged no-op (state
unchanged, no transport effect, no exception); a token with zero or two or
more separators raises ValueError out of the handler. -/
theorem c5_malformed_token_behavior :
    (∀ σ token cid hr c now lm la, pySplit token SEPARATOR = [lm, la] →
      (get_message σ.sess lm = none →
        app_message_button_callback σ token cid hr c now = (σ, [], Res.ok ())) ∧
      (∀ mref, get_message σ.sess lm = some mref →
        (σ.sess.get mref).get_button la = none →
        app_message_button_callback σ token cid hr c now = (σ, [], Res.ok ()))) ∧
    (∀ σ token cid hr c now, (pySplit token SEPARATOR).length ≠ 2 →
      app_message_button_callback σ token cid hr c now
        = (σ, [], Res.exn (PyErr.valueError "unpack"))) := by
  constructor
  · intro σ token cid hr c now lm la hsplit
    constructor
    · intro hget
      unfold app_message_button_callback
      rw [hsplit]
      dsimp only
      rw [hget]
    · intro mref hget hbtn
      unfold app_message_button_callback
      rw [hsplit]
      dsimp only
      rw [hget]
      dsimp only
      rw [hbtn]
  · intro σ token cid hr c now hlen
    unfold app_message_button_callback
    rcases hs : pySplit token SEPARATOR with _ | ⟨a, _ | ⟨b, _ | ⟨d, t⟩⟩⟩
    · rfl
    · rfl
    · rw [hs] at hlen
      simp at hlen
    · rfl

/-- C5 witness: with a tracked message labelled "options", a token naming an
unknown message and a token naming an unknown button are both no-ops. -/
theorem c5_witness :
    app_message_button_callback stC5w "nope##go" "cid" "h" "c" 3
      = (stC5w, [], Res.ok ()) ∧
    app_message_button_callback stC5w "options##missing" "cid" "h" "c" 3
      = (stC5w, [], Res.ok ()) := by
  constructor
  · exact (c5_malformed_token_behavior.1 stC5w "nope##go" "cid" "h" "c" 3
      "nope" "go" (by decide)).1 (by decide)
  · exact (c5_malformed_token_behavior.1 stC5w "options##missing" "cid" "h" "c" 3
      "options" "missing" (by decide)).2 1 (by decide) (by decide)

/-- message_check_changes reports no change exactly when both diffs agree. -/
theorem message_check_changes_none_iff (m : MsgData) (c : String) :
    message_check_changes m c = none ↔
      (c = m.content_previous ∧ flatLabels m.keyboard_previous = flatLabels m.keyboard) := by
  unfold message_check_changes
  dsimp only
  split
  · simpa using by assumption
  · rename_i hcond
    constructor
    · intro h
      exact absurd h (by simp)
    · intro h
      exact absurd h hcond

/-- A no-op second edit: when the tracked message's snapshots already agree
with the fresh content, edit_message returns false and changes nothing. -/
theorem edit_message_noop (σ : St) (label content : String) (mref : Nat)
    (hg : get_message σ.sess label = some mref)
    (hcp : content = (σ.sess.get mref).content_previous)
    (hkb : flatLabels (σ.sess.get mref).keyboard_previous
      = flatLabels (σ.sess.get mref).keyboard) :
    edit_message σ label content = (σ, [], Res.ok false) := by
  unfold edit_message
  rw [hg]
  dsimp only
  rw [(message_check_changes_none_iff (σ.sess.get mref) content).mpr ⟨hcp, hkb⟩]


/-- State and effect shape of an edit that found a change: the tracked message
holds the updated snapshots (and refreshed input field), whatever the
transport answered, and at most one edit call went out. -/
theorem edit_message_changed (σ : St) (label content : String) (mref : Nat) (m1 : MsgData)
    (hg : get_message σ.sess label = some mref)
    (hc : message_check_changes (σ.sess.get mref) content = some m1) :
    (edit_message σ label content).1.sess
      = (σ.sess.set mref m1).set mref (gen_inline_keyboard_content m1).1 ∧
    (edit_message σ label content).2.1.countP isEditEffect ≤ 1 := by
  unfold edit_message
  rw [hg]
  dsimp only
  rw [hc]
  dsimp only
  rcases hk : (gen_inline_keyboard_content m1).2 with kb | e
  · dsimp only
    constructor
    · split <;> rw [St.take_sess]
    · split <;> split <;> simp [isEditEffect]
  · exact ⟨rfl, by simp⟩

/-- C6 (confirmed): editing the same tracked message twice with the same fresh
content and unchanged keyboard issues at most one transport edit in the
first call, and the second call returns false, emits no effect and leaves
the state untouched. -/
theorem c6_idempotent_edit (σ : St) (label content : String) :
    edit_message (edit_message σ label content).1 label content
      = ((edit_message σ label content).1, [], Res.ok false) ∧
    (edit_message σ label content).2.1.countP isEditEffect ≤ 1 := by
  rcases hg : get_message σ.sess label with _ | mref
  · have h1 : edit_message σ label content = (σ, [], Res.ok false) := by
      unfold edit_message
      rw [hg]
    exact ⟨by rw [h1]; exact h1, by rw [h1]; simp⟩
  · rcases hc : message_check_changes (σ.sess.get mref) content with _ | m1
    · have h1 : edit_message σ label content = (σ, [], Res.ok false) := by
        unfold edit_message
        rw [hg]
        dsimp only
        rw [hc]
      exact ⟨by rw [h1]; exact h1, by rw [h1]; simp⟩
    · obtain ⟨hstate, hcount⟩ := edit_message_changed σ label content mref m1 hg hc
      have hm1 := message_check_changes_eq _ _ _ hc
      refine ⟨?_, hcount⟩
      have hlab : ∀ x, (((σ.sess.set mref m1).set mref
          (gen_inline_keyboard_content m1).1).get x).label = (σ.sess.get x).label := by
        intro x
        by_cases hx : x = mref
        · subst hx
          rw [Session.get_set_self, (gen_inline_keyboard_content_fields m1).2.1, hm1]
        · rw [Session.get_set_ne _ _ _ _ hx, Session.get_set_ne _ _ _ _ hx]
      have hget2 : get_message (edit_message σ label content).1.sess label = some mref := by
        rw [hstate]
        unfold get_message at hg ⊢
        rw [Session.set_message_queue, Session.set_message_queue]
        rw [find?_congr σ.sess.message_queue _ _ (fun x hx => by rw [hlab x])]
        exact hg
      have hcp2 : content = ((edit_message σ label content).1.sess.get mref).content_previous := by
        rw [hstate, Session.get_set_self,
          (gen_inline_keyboard_content_fields m1).2.2.2.2.1, hm1]
      have hkb2 : flatLabels ((edit_message σ label content).1.sess.get mref).keyboard_previous
          = flatLabels ((edit_message σ label content).1.sess.get mref).keyboard := by
        rw [hstate, Session.get_set_self,
          (gen_inline_keyboard_content_fields m1).2.2.2.2.2.1,
          (gen_inline_keyboard_content_fields m1).1, hm1]
      exact edit_message_noop _ label content mref hget2 hcp2 hkb2


/-- C1 counterexample: the transport rejects the edit, edit_message returns
false — yet the last-transmitted snapshot has already been overwritten with
the new content ("a" became "b"), so the snapshots are updated before the
transport call succeeds. -/
theorem c1_counterexample :
    (edit_message stC1 "card_x" "b").2.2 = Res.ok false ∧
    (sessC1.get 1).content_previous = "a" ∧
    ((edit_message stC1 "card_x" "b").1.sess.get 1).content_previous = "b" ∧
    (edit_message stC1 "card_x" "b").2.1 = [Effect.editText 7 "b"] := by
  exact ⟨by decide, by decide, by decide, by decide⟩

/-- C1 (amended): when the change diff fires and the transport rejects the
edit, edit_message returns false, exactly one edit call was issued, and the
snapshots of the tracked message have already been replaced by the newly
computed content and current keyboard (the update happens in
_message_check_changes, before the transport call); only _send_app_message
snapshots strictly after a successful transmit. -/
theorem c1_failed_edit_updates_snapshots (σ : St) (label content : String)
    (mref : Nat) (m1 : MsgData) (kb : List (List InlineBtn)) (rest : List SendResult)
    (hg : get_message σ.sess label = some mref)
    (hc : message_check_changes (σ.sess.get mref) content = some m1)
    (hk : (gen_inline_keyboard_content m1).2 = Res.ok kb)
    (htr : σ.trs = SendResult.badRequest :: rest) :
    (edit_message σ label content).2.2 = Res.ok false ∧
    ((edit_message σ label content).1.sess.get mref).content_previous = content ∧
    ((edit_message σ label content).1.sess.get mref).keyboard_previous
      = (σ.sess.get mref).keyboard ∧
    (edit_message σ label content).2.1.countP isEditEffect = 1 := by
  have hm1 := message_check_changes_eq _ _ _ hc
  unfold edit_message
  rw [hg]
  dsimp only
  rw [hc]
  dsimp only
  rw [hk]
  dsimp only
  have htk : ∀ s : Session, (St.take ({ sess := s, trs := σ.trs } : St)).1
      = SendResult.badRequest := by
    intro s
    simp [St.take, htr]
  rw [htk]
  refine ⟨rfl, ?_, ?_, ?_⟩
  · rw [St.take_sess]
    dsimp only
    rw [Session.get_set_self, (gen_inline_keyboard_content_fields m1).2.2.2.2.1, hm1]
  · rw [St.take_sess]
    dsimp only
    rw [Session.get_set_self, (gen_inline_keyboard_content_fields m1).2.2.2.2.2.1, hm1]
  · split <;> split <;> simp [isEditEffect]

/-- C1 witness: the amended statement applied to the concrete failing edit. -/
theorem c1_witness :
    (edit_message stC1 "card_x" "b").2.2 = Res.ok false ∧
    ((edit_message stC1 "card_x" "b").1.sess.get 1).content_previous = "b" ∧
    ((edit_message stC1 "card_x" "b").1.sess.get 1).keyboard_previous
      = (stC1.sess.get 1).keyboard := by
  have h := c1_failed_edit_updates_snapshots stC1 "card_x" "b" 1
    { mCard with content_previous := "b", keyboard_previous := mCard.keyboard }
    [[]] [] (by decide) (by decide) (by decide) rfl
  exact ⟨h.1, h.2.1, h.2.2.1⟩


/-- C2 exhibit of the source defect: message 1 with label "opt_x" is already
tracked; sending message 2 (same post-suffix label) is supposed to
delete-and-replace it, but `_send_app_message` passes the *new* message to
`_delete_queued_message`, so nothing is removed: no transport delete is
issued and the queue afterwards holds two tracked messages with label
"opt_x". -/
theorem c2_bug_exhibit :
    get_message stC2.sess "opt_x" = some 1 ∧
    (send_app_message stC2 2 "x" "hello" 7).1.sess.message_queue = [1, 2] ∧
    ((send_app_message stC2 2 "x" "hello" 7).1.sess.get 1).label = "opt_x" ∧
    ((send_app_message stC2 2 "x" "hello" 7).1.sess.get 2).label = "opt_x" ∧
    (send_app_message stC2 2 "x" "hello" 7).2.1 = [Effect.sendMessage "hello"] ∧
    (send_app_message stC2 2 "x" "hello" 7).2.2 = Res.ok 9 := by
  exact ⟨by decide, by decide, by decide, by decide, by decide, by decide⟩

/-- C9 (confirmed): with a poll awaiting its answer and a callable bound
callback, poll_answer invokes the callback exactly once with the text of the
selected option, then issues the transport delete of the poll message,
leaves no deadline job scheduled, and resets the pending poll to none. -/
theorem c9_poll_answer (σ : St) (p : PollMsg) (k : Nat) (i : Nat)
    (hp : σ.sess.poll = some p)
    (hcb : σ.sess.poll_callback = some (Callback.func k))
    (hi : i < p.options.length) :
    (poll_answer σ i).2.1
      = [Effect.pollCallback (p.options.get ⟨i, hi⟩), Effect.deleteMsg p.message_id] ∧
    (poll_answer σ i).1.sess.poll = none ∧
    (poll_answer σ i).1.sess.poll_job = false ∧
    (poll_answer σ i).2.2 = Res.ok () := by
  unfold poll_answer poll_delete
  rw [hp, hcb]
  dsimp only [Callback.callableB]
  rw [if_pos rfl, dif_pos hi]
  dsimp only
  refine ⟨by simp, rfl, ?_, rfl⟩
  rw [St.take_sess]
  split <;> simp_all

/-- C9 witness: answering option 1 of the pending poll "Pick one" with options
A and B invokes the callback once with "B", deletes poll message 42, leaves
no job, and clears the poll. -/
theorem c9_witness :
    (poll_answer stC9 1).2.1 = [Effect.pollCallback "B", Effect.deleteMsg 42] ∧
    (poll_answer stC9 1).1.sess.poll = none ∧
    (poll_answer stC9 1).1.sess.poll_job = false ∧
    (poll_answer stC9 1).2.2 = Res.ok () := by
  have h := c9_poll_answer stC9 (PollMsg.mk "Pick one" ["A", "B"] 42) 0 1 rfl rfl
    (by decide)
  exact ⟨by rw [h.1]; rfl, h.2.1, h.2.2.1, h.2.2.2⟩

/-- C7 counterexample: from depth two (which is depth at least one), a
goto_home whose re-send is rejected by the transport leaves the stack at
depth zero, not depth one. -/
theorem c7_counterexample :
    1 ≤ stC7.sess.menu_queue.length ∧
    (goto_home stC7 "home" 9).1.sess.menu_queue.length = 0 := by
  exact ⟨by decide, by decide⟩

/-- C7 (amended): provided the re-send transport call succeeds, goto_home
collapses any stack with bottom entry root to exactly [root]; at depth one
it is a no-op making no transport call and returning the root's current
message id, so an immediate second call returns the same id. -/
theorem c7_home_collapse :
    (∀ σ root c now, AllSent σ.trs → σ.sess.menu_queue.head? = some root →
      (goto_home σ c now).1.sess.menu_queue = [root]) ∧
    (∀ σ root c c2 now now2, σ.sess.menu_queue = [root] →
      goto_home σ c now = (σ, [], Res.ok ((σ.sess.get root).message_id)) ∧
      (goto_home (goto_home σ c now).1 c2 now2).2.2 = (goto_home σ c now).2.2) := by
  constructor
  · intro σ root c now hs hq
    exact (goto_home_allSent σ root c now hs hq).1
  · intro σ root c c2 now now2 hq
    have h1 : goto_home σ c now = (σ, [], Res.ok ((σ.sess.get root).message_id)) := by
      unfold goto_home
      rw [hq]
    refine ⟨h1, ?_⟩
    rw [h1]
    dsimp only
    have h2 : goto_home σ c2 now2 = (σ, [], Res.ok ((σ.sess.get root).message_id)) := by
      unfold goto_home
      rw [hq]
    rw [h2]

/-- C7 witness: the amended statement at a depth-three all-success stack and
at the depth-one no-op. -/
theorem c7_witness :
    (goto_home { sess := sessDepth3, trs := [SendResult.sent 12] } "home" 9).1.sess.menu_queue
      = [1] ∧
    goto_home stC7w "x" 4 = (stC7w, [], Res.ok 11) := by
  constructor
  · exact c7_home_collapse.1 { sess := sessDepth3, trs := [SendResult.sent 12] } 1 "home" 9
      (by intro r hr; simp at hr; subst hr; exact ⟨12, rfl⟩) (by decide)
  · have h := (c7_home_collapse.2 stC7w 1 "x" "y" 4 5 (by decide)).1
    simpa using h

/-- C8 (confirmed): Back at depth one returns the root's current message id
with no transport send and an unchanged session; at depth at least two it
pops the top entry, pops once more (entries always remain after the first
pop at that depth), and re-sends the resulting entry via goto_menu. -/
theorem c8_back_semantics :
    (∀ σ root c1 c2 now, σ.sess.menu_queue = [root] →
      select_menu_button σ "Back" c1 c2 now
        = (σ, [], Res.ok (some ((σ.sess.get root).message_id)))) ∧
    (∀ σ c1 c2 now, 2 ≤ σ.sess.menu_queue.length →
      select_menu_button σ "Back" c1 c2 now
        = ((goto_menu { σ with sess := { σ.sess with
              menu_queue := σ.sess.menu_queue.dropLast.dropLast } }
            (σ.sess.menu_queue.dropLast.getLastD 0) c1 now).1,
           (goto_menu { σ with sess := { σ.sess with
              menu_queue := σ.sess.menu_queue.dropLast.dropLast } }
            (σ.sess.menu_queue.dropLast.getLastD 0) c1 now).2.1,
           (goto_menu { σ with sess := { σ.sess with
              menu_queue := σ.sess.menu_queue.dropLast.dropLast } }
            (σ.sess.menu_queue.dropLast.getLastD 0) c1 now).2.2.map some)) := by
  constructor
  · intro σ root c1 c2 now hq
    unfold select_menu_button
    rw [if_pos rfl, hq]
  · intro σ c1 c2 now hlen
    unfold select_menu_button
    rw [if_pos rfl]
    cases hq : σ.sess.menu_queue with
    | nil => rw [hq] at hlen; simp at hlen
    | cons a t =>
      cases t with
      | nil => rw [hq] at hlen; simp at hlen
      | cons b u => rfl

/-- C8 witness: Back at the depth-one root returns id 11 without effects, and
Back at depth three re-renders the entry two levels up, leaving [1, 2]. -/
theorem c8_witness :
    select_menu_button stC8 "Back" "c" "d" 3 = (stC8, [], Res.ok (some 11)) ∧
    (select_menu_button stC8b "Back" "c" "d" 3).1.sess.menu_queue = [1, 2] := by
  constructor
  · have h := c8_back_semantics.1 stC8 1 "c" "d" 3 rfl
    simpa using h
  · have h := c8_back_semantics.2 stC8b "c" "d" 3 (by decide)
    rw [h]
    decide


theorem getLastD_eq_getLast (l : List Nat) (h : l ≠ []) : l.getLastD 0 = l.getLast h := by
  rw [List.getLastD_eq_getLast?, List.getLast?_eq_getLast l h]
  rfl

theorem dropLast_getLastD_append (l : List Nat) (h : l ≠ []) :
    l.dropLast ++ [l.getLastD 0] = l := by
  rw [getLastD_eq_getLast l h]
  exact List.dropLast_append_getLast h

theorem send_app_prepare_trs (σ : St) (mref : Nat) (label : String) :
    (send_app_prepare σ mref label).1.trs <:+ σ.trs := by
  unfold send_app_prepare
  dsimp only
  split
  · exact delete_queued_trs _ _
  · exact List.suffix_refl _

theorem send_app_prepare_menu_queue (σ : St) (mref : Nat) (label : String) :
    (send_app_prepare σ mref label).1.sess.menu_queue = σ.sess.menu_queue := by
  unfold send_app_prepare
  dsimp only
  split
  · exact delete_queued_menu_queue _ _
  · rfl

theorem send_app_send_trs (σ2 : St) (mref : Nat) (content : String) (now : Nat)
    (e1 : List Effect) :
    (send_app_send σ2 mref content now e1).1.trs <:+ σ2.trs := by
  unfold send_app_send app_push
  dsimp only
  split
  · exact List.suffix_refl _
  · split
    · split
      · exact take_trs_suffix _
      · exact take_trs_suffix _
    · split
      · exact take_trs_suffix _
      · exact take_trs_suffix _

theorem send_app_send_menu_queue (σ2 : St) (mref : Nat) (content : String) (now : Nat)
    (e1 : List Effect) :
    (send_app_send σ2 mref content now e1).1.sess.menu_queue = σ2.sess.menu_queue := by
  unfold send_app_send app_push
  dsimp only
  split
  · rfl
  · split <;> split <;> simp

theorem send_app_trs (σ : St) (mref : Nat) (label content : String) (now : Nat) :
    (send_app_message σ mref label content now).1.trs <:+ σ.trs := by
  unfold send_app_message
  dsimp only
  split
  · exact send_app_prepare_trs σ mref label
  · exact (send_app_send_trs _ _ _ _ _).trans (send_app_prepare_trs σ mref label)

theorem send_app_menu_queue (σ : St) (mref : Nat) (label content : String) (now : Nat) :
    (send_app_message σ mref label content now).1.sess.menu_queue = σ.sess.menu_queue := by
  unfold send_app_message
  dsimp only
  split
  · exact send_app_prepare_menu_queue σ mref label
  · rw [send_app_send_menu_queue, send_app_prepare_menu_queue]

theorem capture_user_input_state (σ : St) (label : String) :
    (capture_user_input σ label).1 = σ := by
  unfold capture_user_input
  split
  · rfl
  · split <;> rfl

/-- The sweep loop touches only the application-message queue and the
transport trace: the menu stack and the heap are untouched, the queue only
loses elements, and the trace is only consumed. -/
theorem checker_loop_state (σ : St) (i now : Nat) :
    (checker_loop σ i now).1.sess.menu_queue = σ.sess.menu_queue ∧
    (checker_loop σ i now).1.sess.store = σ.sess.store ∧
    (checker_loop σ i now).1.sess.message_queue ⊆ σ.sess.message_queue ∧
    (checker_loop σ i now).1.trs <:+ σ.trs := by
  induction σ, i, now using checker_loop.induct with
  | case1 σ i now h mref e heq =>
    unfold checker_loop
    rw [dif_pos h]
    dsimp only
    rw [heq]
    exact ⟨rfl, rfl, fun x hx => hx, List.suffix_refl _⟩
  | case2 σ i now h mref hexp del e heq =>
    unfold checker_loop
    rw [dif_pos h]
    dsimp only
    rw [hexp]
    dsimp only
    rw [heq]
    refine ⟨delete_queued_menu_queue _ _, delete_queued_store _ _, ?_, delete_queued_trs _ _⟩
    rcases delete_queued_message_queue σ mref with hq | hq
    · rw [hq]
      exact List.erase_subset _ _
    · rw [hq]
      exact fun x hx => hx
  | case3 σ i now h mref hexp del a heq ih =>
    unfold checker_loop
    rw [dif_pos h]
    dsimp only
    rw [hexp]
    dsimp only
    rw [heq]
    dsimp only
    obtain ⟨ih1, ih2, ih3, ih4⟩ := ih
    refine ⟨?_, ?_, ?_, ?_⟩
    · rw [ih1, delete_queued_menu_queue]
    · rw [ih2, delete_queued_store]
    · refine ih3.trans ?_
      rcases delete_queued_message_queue σ mref with hq | hq
      · rw [hq]
        exact List.erase_subset _ _
      · rw [hq]
        exact fun x hx => hx
    · exact ih4.trans (delete_queued_trs _ _)
  | case4 σ i now h mref hexp ih =>
    unfold checker_loop
    rw [dif_pos h]
    dsimp only
    rw [hexp]
    exact ih
  | case5 σ i now h =>
    unfold checker_loop
    rw [dif_neg h]
    exact ⟨rfl, rfl, fun x hx => hx, List.suffix_refl _⟩


/-- select_menu_button preserves a rooted stack and an all-success trace. -/
theorem select_allSent_head (σ : St) (label c1 c2 : String) (now : Nat) (root : Nat)
    (h : AllSent σ.trs) (hq : σ.sess.menu_queue.head? = some root) :
    (select_menu_button σ label c1 c2 now).1.sess.menu_queue.head? = some root ∧
    AllSent (select_menu_button σ label c1 c2 now).1.trs := by
  have hne : σ.sess.menu_queue ≠ [] := by
    intro hnil
    rw [hnil] at hq
    simp at hq
  unfold select_menu_button
  by_cases hb : label = "Back"
  · rw [if_pos hb]
    cases hq2 : σ.sess.menu_queue with
    | nil => exact absurd hq2 hne
    | cons a t =>
      have ha : a = root := by rw [hq2] at hq; simpa using hq
      subst ha
      cases t with
      | nil =>
        simp only [hq2]
        exact ⟨by rw [← hq2]; exact hq, h⟩
      | cons b u =>
        simp only [hq2]
        have h2 := goto_menu_allSent
          { σ with sess := { σ.sess with menu_queue := (a :: b :: u).dropLast.dropLast } }
          ((a :: b :: u).dropLast.getLastD 0) c1 now h
        refine ⟨?_, h2.2.2⟩
        dsimp only
        rw [h2.1]
        dsimp only
        rw [dropLast_getLastD_append ((a :: b :: u).dropLast) (by simp)]
        rfl
  · rw [if_neg hb]
    by_cases hh : label = "Home"
    · rw [if_pos hh]
      have hgh := goto_home_allSent σ root c1 now h hq
      exact ⟨by dsimp only; rw [hgh.1]; rfl, hgh.2.2⟩
    · rw [if_neg hh]
      rcases hf : find_menu_button σ.sess label with _ | btn
      · dsimp only
        rw [capture_user_input_state]
        exact ⟨hq, h⟩
      · dsimp only
        rcases hcb : btn.callback with _ | k | tref
        · exact ⟨hq, h⟩
        · exact ⟨hq, h⟩
        · dsimp only
          by_cases hin : (σ.sess.get tref).inlined
          · rw [if_pos hin]
            have hsa_t : AllSent (send_app_message σ tref label c1 now).1.trs :=
              allSent_of_suffix (send_app_trs σ tref label c1 now) h
            have hsa_h : (send_app_message σ tref label c1 now).1.sess.menu_queue.head?
                = some root := by rw [send_app_menu_queue]; exact hq
            rcases hres : (send_app_message σ tref label c1 now).2.2 with mid | e
            · dsimp only
              by_cases hha : ((send_app_message σ tref label c1 now).1.sess.get tref).home_after
              · rw [if_pos hha]
                have hgh := goto_home_allSent (send_app_message σ tref label c1 now).1
                  root c2 now hsa_t hsa_h
                exact ⟨by dsimp only; rw [hgh.1]; rfl, hgh.2.2⟩
              · rw [if_neg hha]
                exact ⟨hsa_h, hsa_t⟩
            · exact ⟨hsa_h, hsa_t⟩
          · rw [if_neg hin]
            have hgm := goto_menu_allSent σ tref c1 now h
            refine ⟨?_, hgm.2.2⟩
            dsimp only
            rw [hgm.1, List.head?_append_of_ne_nil _ hne]
            exact hq

/-- The expiry sweep preserves a rooted stack and an all-success trace. -/
theorem sweep_allSent_head (σ : St) (now : Nat) (c : String) (root : Nat)
    (h : AllSent σ.trs) (hq : σ.sess.menu_queue.head? = some root) :
    (expiry_date_checker σ now c).1.sess.menu_queue.head? = some root ∧
    AllSent (expiry_date_checker σ now c).1.trs := by
  obtain ⟨hk1, hk2, hk3, hk4⟩ := checker_loop_state σ 0 now
  have hkq : (checker_loop σ 0 now).1.sess.menu_queue.head? = some root := by
    rw [hk1]; exact hq
  have hkt : AllSent (checker_loop σ 0 now).1.trs := allSent_of_suffix hk4 h
  have hgh := goto_home_allSent (checker_loop σ 0 now).1 root c now hkt hkq
  unfold expiry_date_checker
  dsimp only
  rcases hr : (checker_loop σ 0 now).2.2 with u | e
  · simp only [hr]
    split
    · split
      · exact ⟨hkq, hkt⟩
      · split
        all_goals first
          | exact ⟨hkq, hkt⟩
          | exact ⟨by dsimp only; rw [hgh.1]; rfl, hgh.2.2⟩
    · exact ⟨hkq, hkt⟩
  · simp only [hr]
    exact ⟨hkq, hkt⟩

/-- Every navigation operation keeps the stack rooted when the transport
answers success, and keeps the trace all-success. -/
theorem applyOp_head (σ : St) (op : NavOp) (root : Nat)
    (h : AllSent σ.trs) (hq : σ.sess.menu_queue.head? = some root) :
    (applyOp σ op).sess.menu_queue.head? = some root ∧ AllSent (applyOp σ op).trs := by
  have hne : σ.sess.menu_queue ≠ [] := by
    intro hnil
    rw [hnil] at hq
    simp at hq
  cases op with
  | opGotoMenu mref c now =>
    have hgm := goto_menu_allSent σ mref c now h
    unfold applyOp
    refine ⟨?_, hgm.2.2⟩
    rw [hgm.1, List.head?_append_of_ne_nil _ hne]
    exact hq
  | opGotoHome c now =>
    have hgh := goto_home_allSent σ root c now h hq
    unfold applyOp
    exact ⟨by rw [hgh.1]; rfl, hgh.2.2⟩
  | opSelect label c1 c2 now => exact select_allSent_head σ label c1 c2 now root h hq
  | opSweep now c => exact sweep_allSent_head σ now c root h hq

/-- C3 counterexample: from a depth-two stack (initialized, bottom entry 1),
goto_home whose re-send the transport rejects pops everything and pushes
nothing back: the menu stack ends empty and the root entry is gone, against
the claim that a root entry stays in place even when the re-send fails. -/
theorem c3_counterexample :
    stC3.sess.menu_queue.head? = some 1 ∧
    (goto_home stC3 "home" 9).1.sess.menu_queue = [] ∧
    (goto_home stC3 "home" 9).2.2 = Res.ok (-1) := by
  exact ⟨by decide, by decide, by decide⟩

/-- C3 (amended): as long as every transport answer is a success, any sequence
of navigation operations (goto_menu, goto_home, select_menu_button, expiry
sweep) keeps the menu stack non-empty with the same bottom (root) entry; a
failed re-send inside goto_home or Back, however, can leave the stack
empty. -/
theorem c3_root_invariant (ops : List NavOp) (σ : St) (root : Nat)
    (h : AllSent σ.trs) (hq : σ.sess.menu_queue.head? = some root) :
    (applyOps σ ops).sess.menu_queue.head? = some root := by
  induction ops generalizing σ with
  | nil => exact hq
  | cons op rest ih =>
    obtain ⟨h1, h2⟩ := applyOp_head σ op root h hq
    exact ih (applyOp σ op) h2 h1

/-- C3 witness: a Back, a sweep, a goto_menu and a goto_home over a rooted
depth-three stack with an all-success trace keep entry 1 at the bottom. -/
theorem c3_witness :
    (applyOps { sess := sessDepth3, trs := [SendResult.sent 21, SendResult.sent 22,
        SendResult.sent 23, SendResult.sent 24] }
      [NavOp.opSelect "Back" "c" "d" 4, NavOp.opSweep 5 "c",
       NavOp.opGotoMenu 2 "c" 6, NavOp.opGotoHome "c" 7]).sess.menu_queue.head?
      = some 1 := by
  exact c3_root_invariant _ _ 1
    (by
      intro r hr
      simp only [List.mem_cons, List.not_mem_nil, or_false] at hr
      rcases hr with rfl | rfl | rfl | rfl
      · exact ⟨21, rfl⟩
      · exact ⟨22, rfl⟩
      · exact ⟨23, rfl⟩
      · exact ⟨24, rfl⟩)
    (by decide)


theorem aliveInv_set_preserve (s : Session) (mref : Nat) (d : MsgData)
    (hd : d.time_alive = (s.get mref).time_alive ∨ d.time_alive ≠ none)
    (h : AliveInv s) : AliveInv (s.set mref d) := by
  intro r hr
  rw [Session.set_menu_queue, Session.set_message_queue] at hr
  by_cases hx : r = mref
  · subst hx
    rw [Session.get_set_self]
    rcases hd with hd | hd
    · rw [hd]
      exact h r hr
    · exact hd
  · rw [Session.get_set_ne _ _ _ _ hx]
    exact h r hr

theorem aliveInv_mono (s s2 : Session) (hst : s2.store = s.store)
    (hmq : s2.menu_queue ⊆ s.menu_queue) (hq : s2.message_queue ⊆ s.message_queue)
    (h : AliveInv s) : AliveInv s2 := by
  intro r hr
  have hget : s2.get r = s.get r := by
    unfold Session.get
    rw [hst]
  rw [hget]
  rcases List.mem_append.mp hr with hr | hr
  · exact h r (List.mem_append.mpr (Or.inl (hmq hr)))
  · exact h r (List.mem_append.mpr (Or.inr (hq hr)))

theorem aliveInv_menu_append (s : Session) (mref : Nat)
    (h : AliveInv s) (hm : (s.get mref).time_alive ≠ none) :
    AliveInv { s with menu_queue := s.menu_queue ++ [mref] } := by
  intro r hr
  simp only [List.mem_append, List.mem_singleton] at hr
  have hget : (Session.get { s with menu_queue := s.menu_queue ++ [mref] } r) = s.get r := rfl
  rw [hget]
  rcases hr with (hr | rfl) | hr
  · exact h r (List.mem_append.mpr (Or.inl hr))
  · exact hm
  · exact h r (List.mem_append.mpr (Or.inr hr))

theorem aliveInv_message_append (s : Session) (mref : Nat)
    (h : AliveInv s) (hm : (s.get mref).time_alive ≠ none) :
    AliveInv { s with message_queue := s.message_queue ++ [mref] } := by
  intro r hr
  simp only [List.mem_append, List.mem_singleton] at hr
  have hget : (Session.get { s with message_queue := s.message_queue ++ [mref] } r) = s.get r := rfl
  rw [hget]
  rcases hr with hr | (hr | rfl)
  · exact h r (List.mem_append.mpr (Or.inl hr))
  · exact h r (List.mem_append.mpr (Or.inr hr))
  · exact hm

theorem delete_queued_alive (σ : St) (mref : Nat) (h : AliveInv σ.sess) :
    AliveInv (delete_queued_message σ mref).1.sess := by
  refine aliveInv_mono σ.sess _ (delete_queued_store σ mref) ?_ ?_ h
  · rw [delete_queued_menu_queue]
    exact fun x hx => hx
  · rcases delete_queued_message_queue σ mref with hq | hq
    · rw [hq]
      exact List.erase_subset _ _
    · rw [hq]
      exact fun x hx => hx

theorem goto_menu_alive (σ : St) (mref : Nat) (c : String) (now : Nat)
    (h : AliveInv σ.sess) : AliveInv (goto_menu σ mref c now).1.sess := by
  have hset : AliveInv (σ.sess.set mref (gen_keyboard_content (σ.sess.get mref)).1) :=
    aliveInv_set_preserve _ _ _ (Or.inl (gen_keyboard_content_fields _).2.2.2.1) h
  unfold goto_menu menu_push
  dsimp only
  split <;> split
  all_goals simp only [St.take_sess]
  all_goals first
    | exact hset
    | (refine aliveInv_menu_append _ mref ?_ ?_
       · exact aliveInv_set_preserve _ _ _ (Or.inr (by simp [is_alive])) hset
       · rw [Session.get_set_self]
         simp [is_alive])

theorem send_app_prepare_alive (σ : St) (mref : Nat) (label : String)
    (h : AliveInv σ.sess) : AliveInv (send_app_prepare σ mref label).1.sess := by
  have hset : AliveInv (σ.sess.set mref
      (if ¬ containsSub (σ.sess.get mref).label "_"
        then { σ.sess.get mref with label := (σ.sess.get mref).label ++ "_" ++ label }
        else σ.sess.get mref)) := by
    refine aliveInv_set_preserve _ _ _ (Or.inl ?_) h
    split <;> rfl
  unfold send_app_prepare
  dsimp only
  split
  · exact delete_queued_alive _ mref hset
  · exact hset

theorem send_app_send_alive (σ2 : St) (mref : Nat) (content : String) (now : Nat)
    (e1 : List Effect) (h : AliveInv σ2.sess) :
    AliveInv (send_app_send σ2 mref content now e1).1.sess := by
  have halive : AliveInv (σ2.sess.set mref (is_alive (σ2.sess.get mref) now)) :=
    aliveInv_set_preserve _ _ _ (Or.inr (by simp [is_alive])) h
  have hset : AliveInv ((σ2.sess.set mref (is_alive (σ2.sess.get mref) now)).set mref
      (gen_inline_keyboard_content (is_alive (σ2.sess.get mref) now)).1) :=
    aliveInv_set_preserve _ _ _
      (Or.inr (by
        rw [(gen_inline_keyboard_content_fields _).2.2.2.1]
        simp [is_alive])) halive
  have hmref : (((σ2.sess.set mref (is_alive (σ2.sess.get mref) now)).set mref
      (gen_inline_keyboard_content (is_alive (σ2.sess.get mref) now)).1).get mref).time_alive
      ≠ none := by
    rw [Session.get_set_self, (gen_inline_keyboard_content_fields _).2.2.2.1]
    simp [is_alive]
  unfold send_app_send app_push
  dsimp only
  split
  · exact hset
  · split <;> split
    all_goals simp only [St.take_sess]
    all_goals first
      | exact hset
      | (refine aliveInv_set_preserve _ _ _ (Or.inr ?_) ?_
         · rw [Session.get_set_self]
           simp [is_alive]
         · refine aliveInv_message_append _ mref ?_ ?_
           · exact aliveInv_set_preserve _ _ _
               (Or.inl (by rw [Session.get_set_self])) hset
           · rw [Session.get_set_self]
             exact hmref)

theorem send_app_alive (σ : St) (mref : Nat) (label content : String) (now : Nat)
    (h : AliveInv σ.sess) : AliveInv (send_app_message σ mref label content now).1.sess := by
  unfold send_app_message
  dsimp only
  split
  · exact send_app_prepare_alive σ mref label h
  · exact send_app_send_alive _ mref content now _ (send_app_prepare_alive σ mref label h)

theorem goto_home_alive (σ : St) (c : String) (now : Nat) (h : AliveInv σ.sess) :
    AliveInv (goto_home σ c now).1.sess := by
  unfold goto_home
  split
  · exact h
  · exact h
  · refine goto_menu_alive _ _ c now ?_
    refine aliveInv_mono σ.sess _ rfl ?_ ?_ h
    · exact fun x hx => absurd hx (List.not_mem_nil x)
    · exact fun x hx => hx

theorem select_alive (σ : St) (label c1 c2 : String) (now : Nat)
    (h : AliveInv σ.sess) :
    AliveInv (select_menu_button σ label c1 c2 now).1.sess := by
  unfold select_menu_button
  by_cases hb : label = "Back"
  · rw [if_pos hb]
    cases hq2 : σ.sess.menu_queue with
    | nil => exact h
    | cons a t =>
      cases t with
      | nil => exact h
      | cons b u =>
        dsimp only
        refine goto_menu_alive _ _ c1 now ?_
        refine aliveInv_mono σ.sess _ rfl ?_ ?_ h
        · intro x hx
          simp only at hx
          rw [hq2]
          have h1 : (a :: b :: u).dropLast.dropLast ⊆ (a :: b :: u) :=
            (List.dropLast_subset _).trans (List.dropLast_subset _)
          exact h1 hx
        · exact fun x hx => hx
  · rw [if_neg hb]
    by_cases hh : label = "Home"
    · rw [if_pos hh]
      exact goto_home_alive σ c1 now h
    · rw [if_neg hh]
      rcases hf : find_menu_button σ.sess label with _ | btn
      · dsimp only
        rw [capture_user_input_state]
        exact h
      · dsimp only
        rcases hcb : btn.callback with _ | k | tref
        · exact h
        · exact h
        · dsimp only
          by_cases hin : (σ.sess.get tref).inlined
          · rw [if_pos hin]
            have hsa := send_app_alive σ tref label c1 now h
            rcases hres : (send_app_message σ tref label c1 now).2.2 with mid | e
            · dsimp only
              by_cases hha : ((send_app_message σ tref label c1 now).1.sess.get tref).home_after
              · rw [if_pos hha]
                exact goto_home_alive _ c2 now hsa
              · rw [if_neg hha]
                exact hsa
            · exact hsa
          · rw [if_neg hin]
            exact goto_menu_alive σ tref c1 now h

theorem checker_loop_alive (σ : St) (i now : Nat) (h : AliveInv σ.sess) :
    AliveInv (checker_loop σ i now).1.sess := by
  obtain ⟨h1, h2, h3, _⟩ := checker_loop_state σ i now
  refine aliveInv_mono σ.sess _ h2 ?_ h3 h
  rw [h1]
  exact fun x hx => hx

theorem sweep_alive (σ : St) (now : Nat) (c : String) (h : AliveInv σ.sess) :
    AliveInv (expiry_date_checker σ now c).1.sess := by
  have hk := checker_loop_alive σ 0 now h
  unfold expiry_date_checker
  dsimp only
  rcases hr : (checker_loop σ 0 now).2.2 with u | e
  · simp only [hr]
    split
    · split
      · exact hk
      · split
        all_goals first
          | exact hk
          | exact goto_home_alive _ c now hk
    · exact hk
  · simp only [hr]
    exact hk

/-- Every navigation operation preserves the aliveness discipline: messages in
either queue always carry a time_alive stamp. -/
theorem applyOp_alive (σ : St) (op : NavOp) (h : AliveInv σ.sess) :
    AliveInv (applyOp σ op).sess := by
  cases op with
  | opGotoMenu mref c now => exact goto_menu_alive σ mref c now h
  | opGotoHome c now => exact goto_home_alive σ c now h
  | opSelect label c1 c2 now => exact select_alive σ label c1 c2 now h
  | opSweep now c => exact sweep_alive σ now c h


/-- The only exception a queued-message delete can raise is the transport's
BadRequest. -/
theorem delete_queued_exn (σ : St) (mref : Nat) (e : PyErr)
    (h : (delete_queued_message σ mref).2.2 = Res.exn e) :
    e = PyErr.telegramBadRequest := by
  unfold delete_queued_message at h
  split at h
  · dsimp only at h
    split at h <;> simp_all
  · simp at h

/-- When every queued application message carries a timestamp, the sweep loop
never raises AttributeError (its only possible exception is the transport's
BadRequest from a delete). -/
theorem checker_loop_no_attr (σ : St) (i now : Nat)
    (h : ∀ r ∈ σ.sess.message_queue, (σ.sess.get r).time_alive ≠ none) :
    (checker_loop σ i now).2.2 ≠ Res.exn PyErr.attributeError := by
  induction σ, i, now using checker_loop.induct with
  | case1 σ i now h2 mref e heq =>
    have hm : mref ∈ σ.sess.message_queue := σ.sess.message_queue.getElem_mem h2
    have halive := h mref hm
    unfold has_expired at heq
    rcases ht : (σ.sess.get mref).time_alive with _ | t
    · exact absurd ht halive
    · rw [ht] at heq
      simp at heq
  | case2 σ i now h2 mref hexp del e heq =>
    unfold checker_loop
    rw [dif_pos h2]
    dsimp only
    rw [hexp]
    dsimp only
    rw [heq]
    have := delete_queued_exn σ mref e heq
    subst this
    simp
  | case3 σ i now h2 mref hexp del a heq ih =>
    unfold checker_loop
    rw [dif_pos h2]
    dsimp only
    rw [hexp]
    dsimp only
    rw [heq]
    dsimp only
    refine ih ?_
    intro r hr
    have hget : (delete_queued_message σ mref).1.sess.get r = σ.sess.get r := by
      unfold Session.get
      rw [delete_queued_store]
    rw [hget]
    refine h r ?_
    rcases delete_queued_message_queue σ mref with hq | hq
    · rw [hq] at hr
      exact List.erase_subset _ _ hr
    · rw [hq] at hr
      exact hr
  | case4 σ i now h2 mref hexp ih =>
    unfold checker_loop
    rw [dif_pos h2]
    dsimp only
    rw [hexp]
    exact ih h
  | case5 σ i now h2 =>
    unfold checker_loop
    rw [dif_neg h2]
    simp

/-- Under the aliveness discipline the expiry sweep never raises
AttributeError: every has_expired call lands on a stamped message, and the
remaining failure modes are transport BadRequests. -/
theorem sweep_no_attr (σ : St) (now : Nat) (c : String) (h : AliveInv σ.sess) :
    (expiry_date_checker σ now c).2.2 ≠ Res.exn PyErr.attributeError := by
  obtain ⟨hk1, hk2, hk3, hk4⟩ := checker_loop_state σ 0 now
  have hmq : ∀ r ∈ σ.sess.message_queue, (σ.sess.get r).time_alive ≠ none :=
    fun r hr => h r (List.mem_append.mpr (Or.inr hr))
  have hloop := checker_loop_no_attr σ 0 now hmq
  unfold expiry_date_checker
  dsimp only
  rcases hr : (checker_loop σ 0 now).2.2 with u | e
  · simp only [hr]
    split
    · split
      · simp
      · rename_i top heq
        have htop : top ∈ σ.sess.menu_queue := by
          rw [← hk1]
          obtain ⟨hne2, heq2⟩ := List.mem_getLast?_eq_getLast
            (show top ∈ ((checker_loop σ 0 now).1.sess.menu_queue).getLast? from
              by rw [Option.mem_def]; exact heq)
          rw [heq2]
          exact List.getLast_mem hne2
        have halive : (σ.sess.get top).time_alive ≠ none :=
          h top (List.mem_append.mpr (Or.inl htop))
        have hget : (checker_loop σ 0 now).1.sess.get top = σ.sess.get top := by
          unfold Session.get
          rw [hk2]
        split
        · rename_i e2 hexp
          rw [hget] at hexp
          unfold has_expired at hexp
          rcases ht : (σ.sess.get top).time_alive with _ | t
          · exact absurd ht halive
          · rw [ht] at hexp
            simp at hexp
        · dsimp only
          rcases hgh : (goto_home (checker_loop σ 0 now).1 c now).2.2 with mid | e2
          · simp [hgh, Res.map]
          · have := goto_home_exn _ _ _ _ hgh
            subst this
            simp [hgh, Res.map]
        · simp
    · simp
  · simp only [hr]
    rw [hr] at hloop
    simpa using hloop

/-- C10 (confirmed): a freshly constructed BaseMessage has no time_alive
attribute, so has_expired on it raises AttributeError (the `is not None`
guard does not protect the access); and every navigation operation preserves
the discipline that all tracked messages were marked alive before insertion,
under which the expiry sweep never raises AttributeError. -/
theorem c10_alive_discipline :
    (∀ label picture ep inl ha notif fld now,
      has_expired (base_message_init label picture ep inl ha notif fld) now
        = Res.exn PyErr.attributeError) ∧
    (∀ σ op, AliveInv σ.sess → AliveInv (applyOp σ op).sess) ∧
    (∀ σ now c, AliveInv σ.sess →
      (expiry_date_checker σ now c).2.2 ≠ Res.exn PyErr.attributeError) := by
  refine ⟨?_, ?_, ?_⟩
  · intro label picture ep inl ha notif fld now
    rfl
  · intro σ op h
    exact applyOp_alive σ op h
  · intro σ now c h
    exact sweep_no_attr σ now c h

/-- C10 witness: the fresh-message fault, invariant preservation and the
fault-free sweep at a concrete session with one tracked alive message. -/
theorem c10_witness :
    has_expired (base_message_init "m" "" none false false true "") 5
      = Res.exn PyErr.attributeError ∧
    AliveInv (applyOp stC10 (NavOp.opSweep 999 "c")).sess ∧
    (expiry_date_checker stC10 999 "c").2.2 ≠ Res.exn PyErr.attributeError := by
  refine ⟨c10_alive_discipline.1 "m" "" none false false true "" 5, ?_, ?_⟩
  · exact c10_alive_discipline.2.1 stC10 (NavOp.opSweep 999 "c") (by decide)
  · exact c10_alive_discipline.2.2 stC10 999 "c" (by decide)

end TelegramMenu
